import Mathlib

/-!
Verification of the URL-security-scanner detection engine against its
natural-language specification.

The TypeScript sources are shallowly embedded below:

* pure scanning/validation logic (regex-table matching, content validators,
  SPF/DMARC parsing, CNAME fingerprinting, summary computation) is translated
  into executable Lean functions over `List Char` (a string is its character
  list; `String` is kept for display fields);
* network I/O (HTTP fetches, DNS lookups) is modelled as explicit environment
  functions handed to each detector, returning `Option`/`Except` values: `none`
  / `.error` stands for a failed probe, exactly the outcome the code's
  `try/catch` around each request distinguishes;
* JavaScript promise rejection is modelled with `Except String`: a rejected
  promise carries its error, `await` is monadic bind, and `Promise.all` is
  `seqExcept` (it fails iff some element fails; the concrete error value of a
  multi-failure `Promise.all` is timing-dependent in JS and is determinised
  here to the first in list order, which no theorem below depends on).

Character-class reasoning is ASCII; the scanner only ever feeds its regexes
ASCII-anchored service prefixes, and no theorem below depends on non-ASCII
case folding.
-/

/-- Severity levels of `src/types.ts` (`Severity`). -/
inductive Severity where
  | critical
  | high
  | medium
  | low
  | info
deriving DecidableEq, Repr

/-- Evidence attached to an issue (`SecurityIssue.evidence` in `src/types.ts`). -/
structure Evidence where
  query : String
  response : String
  verifyCommand : Option String
deriving DecidableEq, Repr

/-- A single finding (`SecurityIssue` in `src/types.ts`). -/
structure SecurityIssue where
  id : String
  severity : Severity
  category : String
  title : String
  description : String
  fix : String
  evidence : Option Evidence
deriving DecidableEq, Repr

/-- One detector's result (`CheckResult` in `src/types.ts`).  The code's
`details` blob is detector-specific raw data; at the orchestrator level the
claims only need whether a details payload is present, so it is kept opaque
as an optional string. -/
structure CheckResult where
  name : String
  passed : Bool
  issues : List SecurityIssue
  details : Option String
deriving DecidableEq, Repr

/-- Summary counts of a scan (`ScanResult.summary` in `src/types.ts`). -/
structure Summary where
  total : Nat
  passed : Nat
  failed : Nat
  critical : Nat
  high : Nat
  medium : Nat
  low : Nat
  info : Nat
deriving DecidableEq, Repr

/-- A scan's result (`ScanResult` in `src/types.ts`), restricted to the fields
the claims are about; `url`, `timestamp` and `duration` are wall-clock /
argument bookkeeping with no algorithmic content. -/
structure ScanResult where
  checks : List CheckResult
  summary : Summary
deriving DecidableEq, Repr

/-! ## Character and string helpers

JavaScript string primitives used by the scanner, over `List Char`. -/

/-- ASCII lower-casing of one character (`String.prototype.toLowerCase`,
restricted to ASCII, which is all the scanner compares). -/
def lowerChar (c : Char) : Char :=
  if 'A' ≤ c ∧ c ≤ 'Z' then Char.ofNat (c.toNat + 32) else c

/-- ASCII lower-casing of a character list. -/
def lowerStr (l : List Char) : List Char := l.map lowerChar

/-- Auxiliary scanner for substring containment. -/
def strHasAux (pat : List Char) : List Char → Bool
  | [] => pat.isEmpty
  | l@(_ :: rest) => pat.isPrefixOf l || strHasAux pat rest

/-- `s.includes(pat)` of JavaScript: `pat` occurs contiguously in `s`. -/
def strHas (s pat : List Char) : Bool := strHasAux pat s

/-- `s.includes(pat)` on `String` values. -/
def strHasS (s pat : String) : Bool := strHas s.toList pat.toList

/-- The JavaScript `\s` class (ASCII part): space, tab, LF, VT, FF, CR. -/
def isJsSpace (c : Char) : Bool :=
  c = ' ' || c = '\t' || c = '\n' || c = '\x0b' || c = '\x0c' || c = '\r'

/-- `String.prototype.trim`: strip `\s` from both ends. -/
def trimList (l : List Char) : List Char :=
  ((l.dropWhile isJsSpace).reverse.dropWhile isJsSpace).reverse

/-- ASCII decimal digit. -/
def isDigitC (c : Char) : Bool := '0' ≤ c && c ≤ '9'

/-- ASCII uppercase letter. -/
def isUpperC (c : Char) : Bool := 'A' ≤ c && c ≤ 'Z'

/-- ASCII lowercase letter. -/
def isLowerC (c : Char) : Bool := 'a' ≤ c && c ≤ 'z'

/-- The regex class `[a-zA-Z0-9]`. -/
def isAlnum (c : Char) : Bool := isLowerC c || isUpperC c || isDigitC c

/-- The regex class `[A-Z0-9]`. -/
def isUpperDigit (c : Char) : Bool := isUpperC c || isDigitC c

/-- The regex class `[a-f0-9]` (lowercase hex). -/
def isHexLower (c : Char) : Bool := ('a' ≤ c && c ≤ 'f') || isDigitC c

/-- A hexadecimal digit of either case. -/
def isHexAny (c : Char) : Bool := isHexLower c || ('A' ≤ c && c ≤ 'F')

/-- The regex class `\w` = `[A-Za-z0-9_]`. -/
def isWordC (c : Char) : Bool := isAlnum c || c = '_'

/-- The regex class `[a-zA-Z0-9_-]`. -/
def isWordDash (c : Char) : Bool := isAlnum c || c = '_' || c = '-'

/-- The regex class `[a-zA-Z0-9-]`. -/
def isAlnumDash (c : Char) : Bool := isAlnum c || c = '-'

/-- The apostrophe character, U+0027 (written numerically throughout). -/
def apos : Char := Char.ofNat 39

/-- JavaScript line terminators recognised by `.` / multiline anchors
(ASCII part): LF and CR. -/
def isLineTerm (c : Char) : Bool := c = '\n' || c = '\r'

/-- Drop the last `n` elements of a list. -/
def listDropRight (l : List Char) (n : Nat) : List Char := l.take (l.length - n)

/-! ## DNS email-authentication detector (`src/checks/dns-security.ts`)

`checkDnsSecurity` resolves the domain's TXT records (and `_dmarc.<domain>`),
looks for SPF / DMARC records, and reports posture findings.  The `dns`
lookups are I/O: they are modelled by a `DnsEnv` whose `Except Unit`
results mirror the promise resolving with a chunk list (`String[][]` from
`resolveTxt`, joined chunk-wise by the code) or rejecting. -/

/-- DNS lookup outcomes for one domain: MX record count (`none` = the lookup
rejected), and the TXT lookups for the domain itself and for
`_dmarc.<domain>` (`.error` = the lookup rejected). -/
structure DnsEnv where
  mx : Option Nat
  spfTxt : Except Unit (List (List String))
  dmarcTxt : Except Unit (List (List String))

/-- `txtRecords.map(r => r.join(''))`: each TXT record's chunks joined. -/
def joinChunks (rs : List (List String)) : List String :=
  rs.map (fun r => String.join r)

/-- `parseSpfPolicy` from the source: qualifier detection by substring
containment (`record.includes(...)`) in the fixed order
`-all`, `~all`, `?all`, `+all`. -/
def parseSpfPolicy (record : String) : Option String :=
  if strHasS record "-all" then some "fail"
  else if strHasS record "~all" then some "softfail"
  else if strHasS record "?all" then some "neutral"
  else if strHasS record "+all" then some "pass"
  else none

/-- One alternation step of `/p=(none|quarantine|reject)/i` at a fixed
position of the (lowercased) record. -/
def dmarcPolicyAt (l : List Char) : Option String :=
  if ("p=none".toList).isPrefixOf l then some "none"
  else if ("p=quarantine".toList).isPrefixOf l then some "quarantine"
  else if ("p=reject".toList).isPrefixOf l then some "reject"
  else none

/-- Leftmost match of `/p=(none|quarantine|reject)/i` over a lowercased
character list. -/
def findDmarcPolicy : List Char → Option String
  | [] => none
  | l@(_ :: rest) =>
    match dmarcPolicyAt l with
    | some p => some p
    | none => findDmarcPolicy rest

/-- `parseDmarcPolicy` from the source: first `p=` policy token of the
record, lowercased. -/
def parseDmarcPolicy (record : String) : Option String :=
  findDmarcPolicy (lowerStr record.toList)

/-- Per-mechanism detail block (`details.spf` / `details.dmarc`). -/
structure DnsRecordDetails where
  recordExists : Bool
  record : Option String
  policy : Option String
deriving DecidableEq, Repr

/-- `DnsSecurityDetails` of the source. -/
structure DnsSecurityDetails where
  domain : String
  spf : DnsRecordDetails
  dmarc : DnsRecordDetails
  hasMxRecords : Bool
deriving DecidableEq, Repr

/-- The issues plus details produced by `checkDnsSecurity` (its `CheckResult`
fields `name`/`passed` are derived: `passed := issues.isEmpty`). -/
structure DnsOutput where
  issues : List SecurityIssue
  details : DnsSecurityDetails
deriving DecidableEq, Repr

/-- The `dns-spf-permissive` finding (SPF record parsed as `pass`). -/
def spfPermissiveIssue : SecurityIssue :=
  { id := "dns-spf-permissive"
    severity := .high
    category := "Email Security"
    title := "SPF policy is too permissive (+all)"
    description := "Your SPF record ends with +all which allows anyone to send email as your domain"
    fix := "Change +all to ~all or -all in your SPF record"
    evidence := none }

/-- The `dns-no-spf` finding pushed by the record-absent branch (TXT records
resolved but none starts with `v=spf1`). -/
def spfAbsentIssue : SecurityIssue :=
  { id := "dns-no-spf"
    severity := .medium
    category := "Email Security"
    title := "No SPF record found"
    description := "Without SPF, anyone can send emails pretending to be from your domain. This is like having no caller ID on your phone."
    fix := "Add a TXT record to your DNS: v=spf1 include:_spf.google.com ~all (adjust based on your email provider)"
    evidence := none }

/-- The `dns-no-spf` finding pushed by the lookup-failure (`catch`) branch. -/
def spfFailureIssue : SecurityIssue :=
  { id := "dns-no-spf"
    severity := .medium
    category := "Email Security"
    title := "No SPF record found"
    description := "Without SPF, anyone can send emails pretending to be from your domain"
    fix := "Add a TXT record to your DNS with your SPF policy"
    evidence := none }

/-- The `dns-dmarc-none` finding (DMARC present with `p=none`). -/
def dmarcNoneIssue : SecurityIssue :=
  { id := "dns-dmarc-none"
    severity := .low
    category := "Email Security"
    title := "DMARC policy is set to \"none\""
    description := "DMARC is configured but set to monitoring only. Spoofed emails are not rejected."
    fix := "Consider changing DMARC policy from p=none to p=quarantine or p=reject after monitoring"
    evidence := none }

/-- The `dns-no-dmarc` finding pushed by the record-absent branch.  The fix
text interpolates the scanned domain. -/
def dmarcAbsentIssue (domain : String) : SecurityIssue :=
  { id := "dns-no-dmarc"
    severity := .medium
    category := "Email Security"
    title := "No DMARC record found"
    description := "DMARC tells email servers what to do when SPF/DKIM checks fail. Without it, spoofed emails may still be delivered."
    fix := "Add a TXT record for _dmarc." ++ domain ++ ": v=DMARC1; p=quarantine; rua=mailto:dmarc@" ++ domain
    evidence := none }

/-- The `dns-no-dmarc` finding pushed by the lookup-failure (`catch`) branch;
the source spells this literal out a second time, character-identical to the
absent branch's literal. -/
def dmarcFailureIssue (domain : String) : SecurityIssue :=
  { id := "dns-no-dmarc"
    severity := .medium
    category := "Email Security"
    title := "No DMARC record found"
    description := "DMARC tells email servers what to do when SPF/DKIM checks fail. Without it, spoofed emails may still be delivered."
    fix := "Add a TXT record for _dmarc." ++ domain ++ ": v=DMARC1; p=quarantine; rua=mailto:dmarc@" ++ domain
    evidence := none }

/-- `r.toLowerCase().startsWith(tag)`: case-insensitive prefix test. -/
def startsWithCI (tag : String) (r : String) : Bool :=
  (tag.toList).isPrefixOf (lowerStr r.toList)

/-- The SPF half of `checkDnsSecurity`: issues pushed and `details.spf`. -/
def checkDnsSpf (env : DnsEnv) : List SecurityIssue × DnsRecordDetails :=
  match env.spfTxt with
  | .ok recs =>
    match (joinChunks recs).find? (startsWithCI "v=spf1") with
    | some spfRecord =>
      let policy := parseSpfPolicy spfRecord
      ((if policy = some "pass" then [spfPermissiveIssue] else []),
       ⟨true, some spfRecord, policy⟩)
    | none => ([spfAbsentIssue], ⟨false, none, none⟩)
  | .error _ => ([spfFailureIssue], ⟨false, none, none⟩)

/-- The DMARC half of `checkDnsSecurity`: issues pushed and `details.dmarc`. -/
def checkDnsDmarc (domain : String) (env : DnsEnv) :
    List SecurityIssue × DnsRecordDetails :=
  match env.dmarcTxt with
  | .ok recs =>
    match (joinChunks recs).find? (startsWithCI "v=dmarc1") with
    | some dmarcRecord =>
      let policy := parseDmarcPolicy dmarcRecord
      ((if policy = some "none" then [dmarcNoneIssue] else []),
       ⟨true, some dmarcRecord, policy⟩)
    | none => ([dmarcAbsentIssue domain], ⟨false, none, none⟩)
  | .error _ => ([dmarcFailureIssue domain], ⟨false, none, none⟩)

/-- `checkDnsSecurity` of the source, for an already-extracted domain: MX
presence goes into details only; SPF issues are pushed before DMARC issues. -/
def checkDnsSecurity (domain : String) (env : DnsEnv) : DnsOutput :=
  let hasMx := match env.mx with
    | some n => decide (n > 0)
    | none => false
  let spf := checkDnsSpf env
  let dmarc := checkDnsDmarc domain env
  { issues := spf.1 ++ dmarc.1
    details := ⟨domain, spf.2, dmarc.2, hasMx⟩ }

/-! ## Secret-leak detector (`src/checks/api-keys.ts`)

Each entry of `API_KEY_PATTERNS` carries a JavaScript regex with the `g`
flag; `scanForKeys` runs `pattern.exec` in a loop, which finds successive
non-overlapping leftmost matches.  Every pattern in the table is anchored by
a literal service prefix followed by character-class repetitions, so each is
embedded as a deterministic matcher `List Char → Option Nat` returning the
length of the (greedy, backtracking-faithful) match starting at the current
position, and the `exec` loop as `scanMatches`. -/

/-- Fuel-driven core of `scanMatches`; every step advances by at least one
character, so fuel equal to the content length is always enough. -/
def scanMatchesAux (m : List Char → Option Nat) : Nat → List Char → List (List Char)
  | 0, _ => []
  | _, [] => []
  | fuel + 1, c :: rest =>
    match m (c :: rest) with
    | some n =>
      (c :: rest).take n :: scanMatchesAux m fuel ((c :: rest).drop (max n 1))
    | none => scanMatchesAux m fuel rest

/-- Run one anchored matcher the way `RegExp.exec` with the `g` flag does:
try the current position; on a match of length `n` record it and resume after
it; on failure slide one character.  All table matchers return nonempty
matches, and the slide uses `max n 1` so the model is total regardless. -/
def scanMatches (m : List Char → Option Nat) (l : List Char) :
    List (List Char) :=
  scanMatchesAux m l.length l

/-- `/sk-(?:proj-)?[a-zA-Z0-9]{32,}/` (OpenAI): optional `proj-` group is
tried first (regex alternation order), with the greedy `{32,}` taking the
maximal alphanumeric run. -/
def openAIMatch (cs : List Char) : Option Nat :=
  if ("sk-".toList).isPrefixOf cs then
    let r := cs.drop 3
    if ("proj-".toList).isPrefixOf r then
      let run := (r.drop 5).takeWhile isAlnum
      if 32 ≤ run.length then some (8 + run.length)
      else
        let run2 := r.takeWhile isAlnum
        if 32 ≤ run2.length then some (3 + run2.length) else none
    else
      let run := r.takeWhile isAlnum
      if 32 ≤ run.length then some (3 + run.length) else none
  else none

/-- An anchored `{min,}`-style matcher: literal `anchor`, then a greedy run of
`cls` of length at least `min`. -/
def anchoredRun (anchor : List Char) (cls : Char → Bool) (mn : Nat)
    (cs : List Char) : Option Nat :=
  if anchor.isPrefixOf cs then
    let run := (cs.drop anchor.length).takeWhile cls
    if mn ≤ run.length then some (anchor.length + run.length) else none
  else none

/-- An anchored `{n}`-style matcher: literal `anchor`, then exactly `n`
characters of `cls` (the regex has no terminator, so trailing class
characters beyond `n` are simply not part of the match). -/
def anchoredExact (anchor : List Char) (cls : Char → Bool) (n : Nat)
    (cs : List Char) : Option Nat :=
  if anchor.isPrefixOf cs then
    let body := (cs.drop anchor.length).take n
    if body.length = n && body.all cls then some (anchor.length + n) else none
  else none

/-- `[^:]+:[^@]+@` then `finalTail`, the credentials middle shared by the
connection-string patterns.  The `[^X]+` classes exclude their own
terminator, so greedy matching is deterministic. -/
def credsThen (finalTail : List Char → Option Nat) (r1 : List Char) :
    Option Nat :=
  let user := r1.takeWhile (fun c => c ≠ ':')
  if user.length = 0 then none
  else
    match r1.drop user.length with
    | ':' :: r3 =>
      let pw := r3.takeWhile (fun c => c ≠ '@')
      if pw.length = 0 then none
      else
        match r3.drop pw.length with
        | '@' :: r5 =>
          (finalTail r5).map (fun m => user.length + 1 + pw.length + 1 + m)
        | _ => none
    | _ => none

/-- `[^\s"']+` host tail of the MongoDB/PostgreSQL patterns. -/
def freeHostTail (r5 : List Char) : Option Nat :=
  let h := r5.takeWhile (fun c => !(isJsSpace c) && c ≠ '"' && c ≠ apos)
  if h.length = 0 then none else some h.length

/-- Index of the last occurrence of `pat` as a prefix of a suffix of `l`. -/
def findLastOcc (pat : List Char) : List Char → Option Nat
  | [] => if pat.isEmpty then some 0 else none
  | c :: rest =>
    match findLastOcc pat rest with
    | some k => some (k + 1)
    | none => if pat.isPrefixOf (c :: rest) then some 0 else none

/-- `[^\/]*<sfx>` host tail (e.g. `[^\/]*\.psdb\.cloud`): the greedy `[^\/]*`
backtracks to the last occurrence of the literal suffix inside the
slash-free run. -/
def suffixHostTail (sfx : List Char) (r5 : List Char) : Option Nat :=
  let run := r5.takeWhile (fun c => c ≠ '/')
  (findLastOcc sfx run).map (fun k => k + sfx.length)

/-- `scheme://` then credentials then a host tail. -/
def schemeCreds (scheme : List Char) (finalTail : List Char → Option Nat)
    (cs : List Char) : Option Nat :=
  if scheme.isPrefixOf cs then
    (credsThen finalTail (cs.drop scheme.length)).map
      (fun m => scheme.length + m)
  else none

/-- `/postgres(?:ql)?:\/\/[^:]+:[^@]+@.../` body: after the `postgres`
anchor, the optional `ql` is preferred, falling back to the bare form. -/
def postgresBody (finalTail : List Char → Option Nat) (cs : List Char) :
    Option Nat :=
  if ("postgres".toList).isPrefixOf cs then
    let rest := cs.drop 8
    if ("ql".toList).isPrefixOf rest then
      match schemeCreds ("://".toList) finalTail (rest.drop 2) with
      | some n => some (10 + n)
      | none =>
        match schemeCreds ("://".toList) finalTail rest with
        | some n => some (8 + n)
        | none => none
    else
      match schemeCreds ("://".toList) finalTail rest with
      | some n => some (8 + n)
      | none => none
  else none

/-- `/mongodb\+srv:\/\/[^:]+:[^@]+@[^\s"']+/` (MongoDB). -/
def mongoMatch (cs : List Char) : Option Nat :=
  if ("mongodb+srv".toList).isPrefixOf cs then
    (schemeCreds ("://".toList) freeHostTail (cs.drop 11)).map (fun m => 11 + m)
  else none

/-- `/postgres(?:ql)?:\/\/[^:]+:[^@]+@[^\s"']+/` (PostgreSQL). -/
def postgresMatch (cs : List Char) : Option Nat := postgresBody freeHostTail cs

/-- The Firebase regex: literal `"private_key":`, then `\s*`, then
`"-----BEGIN `, an optional `RSA `, and `PRIVATE KEY-----`. -/
def firebaseMatch (cs : List Char) : Option Nat :=
  if ("\"private_key\":".toList).isPrefixOf cs then
    let r := cs.drop 14
    let ws := r.takeWhile isJsSpace
    let r2 := r.drop ws.length
    if ("\"-----BEGIN ".toList).isPrefixOf r2 then
      let r3 := r2.drop 12
      if ("RSA ".toList).isPrefixOf r3 then
        if ("PRIVATE KEY-----".toList).isPrefixOf (r3.drop 4) then
          some (14 + ws.length + 12 + 4 + 16)
        else if ("PRIVATE KEY-----".toList).isPrefixOf r3 then
          some (14 + ws.length + 12 + 16)
        else none
      else if ("PRIVATE KEY-----".toList).isPrefixOf r3 then
        some (14 + ws.length + 12 + 16)
      else none
    else none
  else none

/-- `/SG\.[a-zA-Z0-9_-]{22}\.[a-zA-Z0-9_-]{43}/` (SendGrid). -/
def sendgridMatch (cs : List Char) : Option Nat :=
  if ("SG.".toList).isPrefixOf cs then
    let p1 := (cs.drop 3).take 22
    if p1.length = 22 && p1.all isWordDash then
      match (cs.drop 3).drop 22 with
      | '.' :: r2 =>
        let p2 := r2.take 43
        if p2.length = 43 && p2.all isWordDash then some 69 else none
      | _ => none
    else none
  else none

/-- `/sk_(?:live|test)_[a-zA-Z0-9]{40,}/` (Clerk). -/
def clerkMatch (cs : List Char) : Option Nat :=
  if ("sk_".toList).isPrefixOf cs then
    let r := cs.drop 3
    if ("live_".toList).isPrefixOf r || ("test_".toList).isPrefixOf r then
      let run := (r.drop 5).takeWhile isAlnum
      if 40 ≤ run.length then some (8 + run.length) else none
    else none
  else none

/-- `/mysql:\/\/[^:]+:[^@]+@[^\/]*\.psdb\.cloud/` (PlanetScale). -/
def planetscaleMatch (cs : List Char) : Option Nat :=
  if ("mysql".toList).isPrefixOf cs then
    (schemeCreds ("://".toList) (suffixHostTail (".psdb.cloud".toList))
      (cs.drop 5)).map (fun m => 5 + m)
  else none

/-- `/postgres(?:ql)?:\/\/[^:]+:[^@]+@[^\/]*\.neon\.tech/` (Neon). -/
def neonMatch (cs : List Char) : Option Nat :=
  postgresBody (suffixHostTail (".neon.tech".toList)) cs

/-- `/rediss?:\/\/[^:]+:[^@]+@[^\/]*\.upstash\.io/` (Upstash): the optional
`s` is preferred, falling back to the bare scheme. -/
def upstashMatch (cs : List Char) : Option Nat :=
  if ("redis".toList).isPrefixOf cs then
    let rest := cs.drop 5
    if ("s".toList).isPrefixOf rest then
      match schemeCreds ("://".toList) (suffixHostTail (".upstash.io".toList))
          (rest.drop 1) with
      | some n => some (6 + n)
      | none =>
        match schemeCreds ("://".toList)
            (suffixHostTail (".upstash.io".toList)) rest with
        | some n => some (5 + n)
        | none => none
    else
      match schemeCreds ("://".toList) (suffixHostTail (".upstash.io".toList))
          rest with
      | some n => some (5 + n)
      | none => none
  else none

/-- `/prod:[a-zA-Z0-9]{10,}\|[a-zA-Z0-9]{10,}/` (Convex). -/
def convexMatch (cs : List Char) : Option Nat :=
  if ("prod:".toList).isPrefixOf cs then
    let a := (cs.drop 5).takeWhile isAlnum
    if 10 ≤ a.length then
      match (cs.drop 5).drop a.length with
      | '|' :: r2 =>
        let b := r2.takeWhile isAlnum
        if 10 ≤ b.length then some (5 + a.length + 1 + b.length) else none
      | _ => none
    else none
  else none

/-- `ApiKeyPattern` of the source, with the regex embedded as a matcher. -/
structure ApiKeyPattern where
  name : String
  service : String
  matcher : List Char → Option Nat
  severity : Severity
  description : String
  fix : String
  confidence : String

/-- The OpenAI entry of `API_KEY_PATTERNS` (named to head the table). -/
def openAIPattern : ApiKeyPattern :=
  { name := "OpenAI API Key"
    service := "OpenAI"
    matcher := openAIMatch
    severity := .critical
    description := "OpenAI API key found in JavaScript. Anyone can use your key and charge your account."
    fix := "Move the API key to a server-side environment variable. Never expose OpenAI keys in frontend code."
    confidence := "high" }

/-- `API_KEY_PATTERNS` of the source, in table order.  Apostrophes inside
description/fix texts are spelled with `apos` (U+0027). -/
def API_KEY_PATTERNS : List ApiKeyPattern :=
  [ openAIPattern,
    { name := "Stripe Secret Key", service := "Stripe"
      matcher := anchoredRun ("sk_live_".toList) isAlnum 24
      severity := .critical
      description := "Stripe SECRET key found (not the publishable key). This gives full access to your Stripe account."
      fix := "Move to server-side immediately. Only pk_live_ keys should be in frontend code."
      confidence := "high" },
    { name := "Stripe Test Secret Key", service := "Stripe"
      matcher := anchoredRun ("sk_test_".toList) isAlnum 24
      severity := .high
      description := "Stripe test secret key found. While test mode, this indicates a pattern that may leak production keys."
      fix := "Move to server-side environment variables."
      confidence := "high" },
    { name := "AWS Access Key", service := "AWS"
      matcher := anchoredExact ("AKIA".toList) isUpperDigit 16
      severity := .critical
      description := "AWS Access Key ID found. If the secret key is also exposed, attackers can access your AWS resources."
      fix := "Rotate this key immediately in AWS IAM console. Use AWS Cognito or API Gateway for frontend auth."
      confidence := "high" },
    { name := "Google API Key", service := "Google"
      matcher := anchoredExact ("AIza".toList) isWordDash 35
      severity := .high
      description := "Google API key found. Depending on restrictions, this may allow unauthorized API usage."
      fix := "Restrict the API key in Google Cloud Console to specific domains and APIs."
      confidence := "high" },
    { name := "GitHub Token", service := "GitHub"
      matcher := anchoredExact ("ghp_".toList) isAlnum 36
      severity := .critical
      description := "GitHub Personal Access Token found. This provides access to your GitHub account and repositories."
      fix := "Revoke this token immediately at github.com/settings/tokens and create a new one stored securely."
      confidence := "high" },
    { name := "GitHub OAuth Token", service := "GitHub"
      matcher := anchoredExact ("gho_".toList) isAlnum 36
      severity := .critical
      description := "GitHub OAuth token found."
      fix := "Revoke this token and implement proper OAuth flow server-side."
      confidence := "high" },
    { name := "Slack Bot Token", service := "Slack"
      matcher := anchoredRun ("xoxb-".toList) isAlnumDash 24
      severity := .critical
      description := "Slack Bot token found. This allows sending messages and accessing workspace data."
      fix := "Rotate the token in Slack API settings and store server-side."
      confidence := "high" },
    { name := "Anthropic API Key", service := "Anthropic"
      matcher := anchoredRun ("sk-ant-".toList) isAlnumDash 32
      severity := .critical
      description := "Anthropic (Claude) API key found. Anyone can use your key and charge your account."
      fix := "Move to server-side environment variable immediately."
      confidence := "high" },
    { name := "MongoDB Connection String", service := "MongoDB"
      matcher := mongoMatch
      severity := .critical
      description := "MongoDB connection string with credentials found. Full database access is exposed."
      fix := "Never expose database credentials in frontend code. Use a backend API."
      confidence := "high" },
    { name := "PostgreSQL Connection String", service := "PostgreSQL"
      matcher := postgresMatch
      severity := .critical
      description := "PostgreSQL connection string with credentials found."
      fix := "Move database access to backend. Frontend should never connect directly to databases."
      confidence := "high" },
    { name := "Firebase Private Key", service := "Firebase"
      matcher := firebaseMatch
      severity := .critical
      description := "Firebase Admin SDK private key found. This provides full admin access to your Firebase project."
      fix := "Never expose service account keys in frontend. Use Firebase client SDK with security rules."
      confidence := "high" },
    { name := "Twilio Auth Token", service := "Twilio"
      matcher := anchoredExact ("SK".toList) isHexLower 32
      severity := .high
      description := "Possible Twilio API key found."
      fix := "Move to server-side and use Twilio Functions or your own backend."
      confidence := "medium" },
    { name := "SendGrid API Key", service := "SendGrid"
      matcher := sendgridMatch
      severity := .critical
      description := "SendGrid API key found. This allows sending emails from your account."
      fix := "Move to server-side environment variable."
      confidence := "high" },
    { name := "Mailgun API Key", service := "Mailgun"
      matcher := anchoredExact ("key-".toList) isAlnum 32
      severity := .critical
      description := "Mailgun API key found."
      fix := "Move to server-side environment variable."
      confidence := "high" },
    { name := "Resend API Key", service := "Resend"
      matcher := anchoredRun ("re_".toList) isAlnum 32
      severity := .critical
      description := "Resend API key found. Someone could send emails from your account."
      fix := "Move to server-side. Use Resend" ++ String.mk [apos] ++ "s API from your backend, not frontend."
      confidence := "high" },
    { name := "Clerk Secret Key", service := "Clerk"
      matcher := clerkMatch
      severity := .critical
      description := "Clerk secret key found. This gives full access to your auth system."
      fix := "Only use Clerk publishable keys (pk_) in frontend. Secret keys go server-side."
      confidence := "high" },
    { name := "Vercel Token", service := "Vercel"
      matcher := anchoredRun ("vercel_".toList) isAlnum 24
      severity := .critical
      description := "Vercel deployment token found. Could allow unauthorized deployments."
      fix := "Rotate this token in Vercel settings immediately."
      confidence := "high" },
    { name := "PlanetScale Connection", service := "PlanetScale"
      matcher := planetscaleMatch
      severity := .critical
      description := "PlanetScale database connection string found."
      fix := "Move database connections to server-side. Use API routes."
      confidence := "high" },
    { name := "Neon Database Connection", service := "Neon"
      matcher := neonMatch
      severity := .critical
      description := "Neon database connection string found."
      fix := "Never expose database URLs in frontend. Use server-side API routes."
      confidence := "high" },
    { name := "Upstash Redis", service := "Upstash"
      matcher := upstashMatch
      severity := .critical
      description := "Upstash Redis connection string found."
      fix := "Use Upstash REST API with read-only tokens for frontend, or move to backend."
      confidence := "high" },
    { name := "Convex Deploy Key", service := "Convex"
      matcher := convexMatch
      severity := .high
      description := "Possible Convex deploy key found."
      fix := "Convex deploy keys should only be in CI/CD, not in frontend code."
      confidence := "medium" } ]

/-- `maskKey` of the source: keys of length at most 16 keep 4 leading
characters, longer keys keep 8; both keep the last 4 (JavaScript
`substring` clamps a negative start to 0, as Nat subtraction does here). -/
def maskKey (key : List Char) : List Char :=
  if key.length ≤ 16 then
    key.take 4 ++ "****".toList ++ key.drop (key.length - 4)
  else
    key.take 8 ++ "****".toList ++ key.drop (key.length - 4)

/-- `ExposedKey` of the source (`match` is a Lean keyword, so the matched
text field is `matched`). -/
structure ExposedKey where
  pattern : ApiKeyPattern
  matched : List Char
  masked : List Char
  location : String

/-- The duplicate guard of `scanForKeys`: an entry is pushed unless one with
the same masked value and pattern name is already present. -/
def pushKey (kp : ApiKeyPattern) (location : String) (found : List ExposedKey)
    (m : List Char) : List ExposedKey :=
  let masked := maskKey m
  if found.any (fun f =>
      decide (f.masked = masked) && decide (f.pattern.name = kp.name)) then
    found
  else
    found ++ [⟨kp, m, masked, location⟩]

/-- One pattern's pass of `scanForKeys`: every `exec` match is pushed through
the duplicate guard in match order. -/
def scanStep (content : List Char) (location : String)
    (found : List ExposedKey) (kp : ApiKeyPattern) : List ExposedKey :=
  (scanMatches kp.matcher content).foldl (pushKey kp location) found

/-- `scanForKeys` of the source: all patterns of the static table, in table
order, over one content. -/
def scanForKeys (content : List Char) (location : String) : List ExposedKey :=
  API_KEY_PATTERNS.foldl (scanStep content location) []

/-! ## `checkApiKeys` aggregation

After fetching the root page, `checkApiKeys` scans (1) every nonempty inline
script body, with location label `inline script`, (2) the raw HTML source,
labelled `HTML source`, and (3) each fetched same-origin script file (first
500 KB), labelled by its URL; `allFoundKeys` is the concatenation of the
per-content `scanForKeys` results, and every collected key becomes one issue.
The script fetching itself (URL resolution, same-origin filter, first-5 cap,
timeouts) is network I/O of the probe layer: the fetched `(url, body)` pairs
are a parameter here. -/

/-- Case-insensitive match of lowercase `pat` at the head of `l`. -/
def ciHeadIs (pat : List Char) (l : List Char) : Bool :=
  decide (lowerStr (l.take pat.length) = pat)

/-- Index of the first case-insensitive occurrence of lowercase `pat`. -/
def findCI (pat : List Char) : List Char → Option Nat
  | [] => if pat.isEmpty then some 0 else none
  | l@(_ :: rest) =>
    if ciHeadIs pat l then some 0
    else (findCI pat rest).map (fun i => i + 1)

/-- Fuel-driven core of `extractInlineScripts`, mirroring the global
case-insensitive regex `<script(?![^>]*src=)[^>]*>([\s\S]*?)<\/script>`:
at an opening `<script` whose attribute run (characters before the next `>`)
does not contain `src=`, the lazy capture runs to the first `</script>`; any
failure slides one character, as `exec` does. -/
def extractInlineAux : Nat → List Char → List (List Char)
  | 0, _ => []
  | _, [] => []
  | fuel + 1, c :: rest =>
    if ciHeadIs ("<script".toList) (c :: rest) then
      let afterTag := (c :: rest).drop 7
      let attrs := afterTag.takeWhile (fun x => x ≠ '>')
      if strHas (lowerStr attrs) ("src=".toList) then
        extractInlineAux fuel rest
      else
        match afterTag.drop attrs.length with
        | '>' :: body =>
          match findCI ("</script>".toList) body with
          | some i => body.take i :: extractInlineAux fuel (body.drop (i + 9))
          | none => extractInlineAux fuel rest
        | _ => extractInlineAux fuel rest
    else extractInlineAux fuel rest

/-- All inline script bodies of an HTML document, in document order. -/
def extractInlineScripts (html : List Char) : List (List Char) :=
  extractInlineAux html.length html

/-- The `(location, content)` pairs `checkApiKeys` scans, in scan order:
nonempty inline scripts, the raw HTML, then each fetched script capped at
500 KB. -/
def apiKeyContents (html : List Char) (scripts : List (String × List Char)) :
    List (String × List Char) :=
  ((extractInlineScripts html).filter (fun s => !(trimList s).isEmpty)).map
      (fun s => ("inline script", s))
    ++ [("HTML source", html)]
    ++ scripts.map (fun p => (p.1, p.2.take 500000))

/-- `allFoundKeys`: concatenation of the per-content scans. -/
def apiKeyFoundKeys (contents : List (String × List Char)) : List ExposedKey :=
  contents.flatMap (fun lc => scanForKeys lc.2 lc.1)

/-- The issue built from one collected key (`checkApiKeys`, issue-conversion
loop). -/
def keyIssue (k : ExposedKey) : SecurityIssue :=
  { id := "apikey-" ++ String.mk (lowerStr k.pattern.service.toList) ++ "-"
      ++ String.mk (k.masked.take 8)
    severity := k.pattern.severity
    category := "Exposed Secrets"
    title := k.pattern.name ++ " exposed: " ++ String.mk k.masked
    description := k.pattern.description
    fix := k.pattern.fix
    evidence := none }

/-- The issue list of `checkApiKeys` over the scanned contents: one issue per
collected key, in collection order (there is no cross-content
deduplication in the conversion loop). -/
def apiKeyIssues (contents : List (String × List Char)) : List SecurityIssue :=
  (apiKeyFoundKeys contents).map keyIssue

/-! ## Content validators and exposed-file detector (`src/checks/exposed-files.ts`)

Several validators call `JSON.parse`; a small recursive-descent JSON parser
is embedded for them (numbers are syntax-checked and their value discarded —
no validator reads one; `\u` escapes map through `Char.ofNat`, whose
clamping of lone surrogates no validator can observe since none compares
parsed string contents). -/

/-- Parsed JSON values, as far as the validators observe them. -/
inductive Json where
  | jnull
  | jbool (b : Bool)
  | jnum
  | jstr (s : List Char)
  | jarr (elems : List Json)
  | jobj (members : List (List Char × Json))

/-- JSON insignificant whitespace. -/
def skipJsonWs (l : List Char) : List Char :=
  l.dropWhile (fun c => c = ' ' || c = '\t' || c = '\n' || c = '\r')

/-- Hexadecimal value of one digit (0 for non-digits; guarded by callers). -/
def hexVal (c : Char) : Nat :=
  if isDigitC c then c.toNat - '0'.toNat
  else if 'a' ≤ c && c ≤ 'f' then c.toNat - 'a'.toNat + 10
  else if 'A' ≤ c && c ≤ 'F' then c.toNat - 'A'.toNat + 10
  else 0

/-- JSON string body parser (after the opening quote): plain characters,
escapes, and `\uXXXX`. -/
def parseJStr : Nat → List Char → Option (List Char × List Char)
  | 0, _ => none
  | fuel + 1, l =>
    match l with
    | [] => none
    | '"' :: r => some ([], r)
    | '\\' :: e :: r =>
      match e with
      | '"' => (parseJStr fuel r).map (fun p => ('"' :: p.1, p.2))
      | '\\' => (parseJStr fuel r).map (fun p => ('\\' :: p.1, p.2))
      | '/' => (parseJStr fuel r).map (fun p => ('/' :: p.1, p.2))
      | 'b' => (parseJStr fuel r).map (fun p => ('\x08' :: p.1, p.2))
      | 'f' => (parseJStr fuel r).map (fun p => ('\x0c' :: p.1, p.2))
      | 'n' => (parseJStr fuel r).map (fun p => ('\n' :: p.1, p.2))
      | 'r' => (parseJStr fuel r).map (fun p => ('\r' :: p.1, p.2))
      | 't' => (parseJStr fuel r).map (fun p => ('\t' :: p.1, p.2))
      | 'u' =>
        match r with
        | h1 :: h2 :: h3 :: h4 :: r4 =>
          if isHexAny h1 && isHexAny h2 && isHexAny h3 && isHexAny h4 then
            let n := ((hexVal h1 * 16 + hexVal h2) * 16 + hexVal h3) * 16
              + hexVal h4
            (parseJStr fuel r4).map (fun p => (Char.ofNat n :: p.1, p.2))
          else none
        | _ => none
      | _ => none
    | c :: r =>
      if c.toNat < 32 then none
      else (parseJStr fuel r).map (fun p => (c :: p.1, p.2))

/-- JSON number parser; returns the remainder after a well-formed number. -/
def parseJNum (l : List Char) : Option (List Char) :=
  let l1 := match l with
    | '-' :: r => r
    | _ => l
  match l1 with
  | d :: r =>
    if d = '0' ∨ ('1' ≤ d ∧ d ≤ '9') then
      let intRest := if d = '0' then r else r.dropWhile isDigitC
      let fracRest := match intRest with
        | '.' :: r2 =>
          let ds := r2.takeWhile isDigitC
          if ds.isEmpty then none else some (r2.drop ds.length)
        | _ => some intRest
      match fracRest with
      | none => none
      | some r3 =>
        match r3 with
        | e :: r4 =>
          if e = 'e' ∨ e = 'E' then
            let r5 := match r4 with
              | '+' :: r6 => r6
              | '-' :: r6 => r6
              | _ => r4
            let ds := r5.takeWhile isDigitC
            if ds.isEmpty then none else some (r5.drop ds.length)
          else some r3
        | [] => some r3
    else none
  | [] => none

mutual

/-- JSON value parser (fuel-driven; fuel bounds the nesting/element count). -/
def parseJVal : Nat → List Char → Option (Json × List Char)
  | 0, _ => none
  | fuel + 1, l =>
    match skipJsonWs l with
    | 'n' :: 'u' :: 'l' :: 'l' :: r => some (.jnull, r)
    | 't' :: 'r' :: 'u' :: 'e' :: r => some (.jbool true, r)
    | 'f' :: 'a' :: 'l' :: 's' :: 'e' :: r => some (.jbool false, r)
    | '"' :: r => (parseJStr (r.length + 1) r).map (fun p => (.jstr p.1, p.2))
    | '[' :: r =>
      match skipJsonWs r with
      | ']' :: r2 => some (.jarr [], r2)
      | _ => (parseJElems fuel r).map (fun p => (.jarr p.1, p.2))
    | '{' :: r =>
      match skipJsonWs r with
      | '}' :: r2 => some (.jobj [], r2)
      | _ => (parseJMembers fuel r).map (fun p => (.jobj p.1, p.2))
    | l' => (parseJNum l').map (fun rest => (.jnum, rest))

/-- Comma-separated array elements, ending at `]`. -/
def parseJElems : Nat → List Char → Option (List Json × List Char)
  | 0, _ => none
  | fuel + 1, l =>
    match parseJVal fuel l with
    | none => none
    | some (v, r) =>
      match skipJsonWs r with
      | ',' :: r2 => (parseJElems fuel r2).map (fun p => (v :: p.1, p.2))
      | ']' :: r2 => some ([v], r2)
      | _ => none

/-- Comma-separated object members, ending at `}`. -/
def parseJMembers : Nat → List Char → Option (List (List Char × Json) × List Char)
  | 0, _ => none
  | fuel + 1, l =>
    match skipJsonWs l with
    | '"' :: r =>
      match parseJStr (r.length + 1) r with
      | none => none
      | some (key, r2) =>
        match skipJsonWs r2 with
        | ':' :: r3 =>
          match parseJVal fuel r3 with
          | none => none
          | some (v, r4) =>
            match skipJsonWs r4 with
            | ',' :: r5 =>
              (parseJMembers fuel r5).map (fun p => ((key, v) :: p.1, p.2))
            | '}' :: r5 => some ([(key, v)], r5)
            | _ => none
        | _ => none
    | _ => none

end

/-- `JSON.parse`: a single JSON value covering the whole text. -/
def jsonParse (l : List Char) : Option Json :=
  match parseJVal (2 * l.length + 2) l with
  | some (v, r) => if (skipJsonWs r).isEmpty then some v else none
  | none => none

/-- The JavaScript `in` operator as the validators use it on a parse result:
key lookup on objects; `false` on arrays (these keys are not indices) and on
primitives (where `in` throws and the surrounding `catch` yields `false`). -/
def jsonHasKey (j : Json) (k : List Char) : Bool :=
  match j with
  | .jobj kvs => kvs.any (fun kv => decide (kv.1 = k))
  | _ => false

/-- `contentType.includes('text/html')`, the shared HTML content-type test. -/
def ctIsHtml (contentType : List Char) : Bool :=
  strHas contentType ("text/html".toList)

/-- `content.trim()` starts with `<!DOCTYPE` or `<html`, the shared HTML
body test of the validators. -/
def bodyIsHtmlDoc (content : List Char) : Bool :=
  ("<!DOCTYPE".toList).isPrefixOf (trimList content)
    || ("<html".toList).isPrefixOf (trimList content)

/-- Match of `/^[A-Z_][A-Z0-9_]*\s*=.+/m` at one position (which the `m`
flag requires to be a line start): an upper/underscore head, a greedy
`[A-Z0-9_]*` run, optional whitespace, `=`, and at least one non-terminator
character.  The greedy runs are deterministic because neither class
contains `=`. -/
def envVarAt : List Char → Bool
  | [] => false
  | c :: rest =>
    if isUpperC c || c = '_' then
      let r1 := rest.dropWhile (fun x => isUpperC x || isDigitC x || x = '_')
      let r2 := r1.dropWhile isJsSpace
      match r2 with
      | '=' :: d :: _ => !(isLineTerm d)
      | _ => false
    else false

/-- Scan for `envVarAt` at every after-terminator position. -/
def envScanAux : List Char → Bool
  | [] => false
  | c :: rest => (if isLineTerm c then envVarAt rest else false) || envScanAux rest

/-- `/^[A-Z_][A-Z0-9_]*\s*=.+/m.test(content)`. -/
def envLineTest (content : List Char) : Bool :=
  envVarAt content || envScanAux content

/-- Occurrence of `--` followed on the same line by `dump` (the `--.*dump`
branch of the SQL validator), over lowercased content. -/
def dashDump : List Char → Bool
  | [] => false
  | c :: rest =>
    (decide (c = '-') &&
      match rest with
      | c2 :: r2 =>
        decide (c2 = '-') &&
          strHas (r2.takeWhile (fun x => !(isLineTerm x))) ("dump".toList)
      | [] => false)
    || dashDump rest

/-- Match, at one position, of the timestamp branch of the log regex: four
digits, a dash-or-slash separator, two digits, the separator again, two
digits. -/
def dateAt : List Char → Bool
  | a :: b :: c :: d :: s1 :: e :: f :: s2 :: g :: h :: _ =>
    isDigitC a && isDigitC b && isDigitC c && isDigitC d
      && (s1 = '-' || s1 = '/') && isDigitC e && isDigitC f
      && (s2 = '-' || s2 = '/') && isDigitC g && isDigitC h
  | _ => false

/-- Scan for a date-shaped substring anywhere. -/
def dateLike : List Char → Bool
  | [] => false
  | l@(_ :: rest) => dateAt l || dateLike rest

/-- Split on line terminators (both LF and CR), giving the line segments the
`m`-flagged `^...$` anchors delimit. -/
def linesOf : List Char → List (List Char)
  | [] => [[]]
  | c :: rest =>
    if isLineTerm c then [] :: linesOf rest
    else
      match linesOf rest with
      | [] => [[c]]
      | L :: Ls => (c :: L) :: Ls

namespace validators

/-- `validators.envFile`: not HTML, and some line looks like `KEY=VALUE`. -/
def envFile (content contentType : List Char) : Bool :=
  if ctIsHtml contentType then false
  else if bodyIsHtmlDoc content then false
  else envLineTest content

/-- `validators.gitConfig`: not HTML, and a known bracketed section header
occurs (`/\[(core|remote|branch|user|submodule)/i`). -/
def gitConfig (content contentType : List Char) : Bool :=
  if ctIsHtml contentType then false
  else if bodyIsHtmlDoc content then false
  else
    let lc := lowerStr content
    strHas lc ("[core".toList) || strHas lc ("[remote".toList)
      || strHas lc ("[branch".toList) || strHas lc ("[user".toList)
      || strHas lc ("[submodule".toList)

/-- `validators.gitHead`: not HTML content type, and the trimmed body is a
branch/tag ref line or a bare 40-hex commit id. -/
def gitHead (content contentType : List Char) : Bool :=
  if ctIsHtml contentType then false
  else
    let t := trimList content
    ("ref: refs/heads/".toList).isPrefixOf t
      || ("ref: refs/tags/".toList).isPrefixOf t
      || (decide (t.length = 40) && t.all isHexLower)

/-- `validators.sqlFile`: not HTML, and a SQL statement keyword or a
`--...dump` comment occurs (case-insensitive). -/
def sqlFile (content contentType : List Char) : Bool :=
  if ctIsHtml contentType then false
  else if bodyIsHtmlDoc content then false
  else
    let lc := lowerStr content
    strHas lc ("create table".toList) || strHas lc ("insert into".toList)
      || strHas lc ("drop table".toList) || strHas lc ("select * from".toList)
      || strHas lc ("alter table".toList) || dashDump lc

/-- `validators.sourceMap`: not HTML, parses as JSON, and has `version` plus
`sources` or `mappings`. -/
def sourceMap (content contentType : List Char) : Bool :=
  if ctIsHtml contentType then false
  else
    match jsonParse content with
    | some j =>
      jsonHasKey j ("version".toList)
        && (jsonHasKey j ("sources".toList) || jsonHasKey j ("mappings".toList))
    | none => false

/-- `validators.phpInfo`: the body carries phpinfo output markers (note: no
content-type check in the source). -/
def phpInfo (content _contentType : List Char) : Bool :=
  strHas content ("PHP Version".toList) && strHas content ("Configuration".toList)

/-- `validators.logFile`: not HTML, and a timestamp or log-level marker
occurs. -/
def logFile (content contentType : List Char) : Bool :=
  if ctIsHtml contentType then false
  else if bodyIsHtmlDoc content then false
  else
    let lc := lowerStr content
    dateLike lc || strHas lc ("[error]".toList) || strHas lc ("[warning]".toList)
      || strHas lc ("[info]".toList) || strHas lc ("[debug]".toList)

/-- `validators.jsonConfig`: not HTML and parses as JSON. -/
def jsonConfig (content contentType : List Char) : Bool :=
  if ctIsHtml contentType then false
  else
    match jsonParse content with
    | some _ => true
    | none => false

/-- `validators.gitignore`: not HTML, some line consists of ignore-pattern
characters, and a typical ignore entry occurs. -/
def gitignore (content contentType : List Char) : Bool :=
  if ctIsHtml contentType then false
  else if bodyIsHtmlDoc content then false
  else
    ((linesOf content).any (fun L =>
        !L.isEmpty && L.all (fun c =>
          c = '#' || c = '*' || c = '/' || isWordC c || c = '.' || c = '-')))
      && (strHas content ("node_modules".toList)
        || strHas content (".env".toList)
        || strHas content ("*.log".toList)
        || strHas content (".git".toList)
        || strHas content ("dist/".toList)
        || strHas content ("build/".toList))

/-- `validators.archiveFile`: ZIP/GZIP magic bytes or an archive content
type (note: no HTML rejection in the source). -/
def archiveFile (content contentType : List Char) : Bool :=
  if ("PK".toList).isPrefixOf content then true
  else
    match content with
    | a :: b :: _ =>
      if a.toNat = 0x1f && b.toNat = 0x8b then true
      else
        strHas contentType ("application/zip".toList)
          || strHas contentType ("application/gzip".toList)
          || strHas contentType ("application/x-tar".toList)
          || strHas contentType ("application/octet-stream".toList)
    | _ =>
      strHas contentType ("application/zip".toList)
        || strHas contentType ("application/gzip".toList)
        || strHas contentType ("application/x-tar".toList)
        || strHas contentType ("application/octet-stream".toList)

/-- `validators.phpConfig`: a PHP open tag together with database-credential
vocabulary (no content-type check in the source). -/
def phpConfig (content _contentType : List Char) : Bool :=
  if strHas content ("<?php".toList) || strHas content ("<?=".toList) then
    strHas content ("DB_".toList) || strHas content ("database".toList)
      || strHas content ("password".toList)
  else false

/-- `validators.packageJson`: not HTML, JSON with `name`, `version` or
`dependencies`. -/
def packageJson (content contentType : List Char) : Bool :=
  if ctIsHtml contentType then false
  else
    match jsonParse content with
    | some j =>
      jsonHasKey j ("name".toList) || jsonHasKey j ("version".toList)
        || jsonHasKey j ("dependencies".toList)
    | none => false

/-- `validators.composerJson`: not HTML, JSON with `require`, `autoload` or
`name` (present in the source's validator table; unused by the file list). -/
def composerJson (content contentType : List Char) : Bool :=
  if ctIsHtml contentType then false
  else
    match jsonParse content with
    | some j =>
      jsonHasKey j ("require".toList) || jsonHasKey j ("autoload".toList)
        || jsonHasKey j ("name".toList)
    | none => false

end validators

/-- `SensitiveFile` of the source. -/
structure SensitiveFile where
  path : String
  name : String
  severity : Severity
  description : String
  fix : String
  validator : Option (List Char → List Char → Bool)

/-- `SENSITIVE_FILES` of the source, in table order. -/
def SENSITIVE_FILES : List SensitiveFile :=
  [ { path := "/.env", name := "Environment file", severity := .critical
      description := "Environment file contains API keys, database passwords, and secrets"
      fix := "Block access to .env files in your web server config"
      validator := some validators.envFile },
    { path := "/.env.local", name := "Local environment file", severity := .critical
      description := "Local environment file may contain development secrets"
      fix := "Block access to .env* files in your web server config"
      validator := some validators.envFile },
    { path := "/.env.production", name := "Production environment file", severity := .critical
      description := "Production secrets exposed"
      fix := "Block access to .env* files in your web server config"
      validator := some validators.envFile },
    { path := "/.git/config", name := "Git config", severity := .critical
      description := "Git repository exposed - attackers can download your entire source code"
      fix := "Block access to .git directory in your web server or hosting config"
      validator := some validators.gitConfig },
    { path := "/.git/HEAD", name := "Git HEAD", severity := .critical
      description := "Git repository exposed - source code can be reconstructed"
      fix := "Block access to .git directory in your web server config"
      validator := some validators.gitHead },
    { path := "/backup.sql", name := "SQL backup", severity := .critical
      description := "Database backup exposed - contains all your data"
      fix := "Remove backup files from web root and never store them publicly"
      validator := some validators.sqlFile },
    { path := "/database.sql", name := "Database dump", severity := .critical
      description := "Database dump exposed"
      fix := "Remove database files from web root"
      validator := some validators.sqlFile },
    { path := "/dump.sql", name := "Database dump", severity := .critical
      description := "Database dump exposed"
      fix := "Remove database files from web root"
      validator := some validators.sqlFile },
    { path := "/db.sql", name := "Database file", severity := .critical
      description := "Database file exposed"
      fix := "Remove database files from web root"
      validator := some validators.sqlFile },
    { path := "/main.js.map", name := "JavaScript source map", severity := .high
      description := "Source maps expose your original source code to anyone"
      fix := "Disable source maps in production: set devtool: false in webpack or sourcemap: false in Vite"
      validator := some validators.sourceMap },
    { path := "/bundle.js.map", name := "Bundle source map", severity := .high
      description := "Source maps expose your original source code"
      fix := "Disable source maps in production builds"
      validator := some validators.sourceMap },
    { path := "/app.js.map", name := "App source map", severity := .high
      description := "Source maps expose your original source code"
      fix := "Disable source maps in production builds"
      validator := some validators.sourceMap },
    { path := "/_next/static/chunks/main.js.map", name := "Next.js source map", severity := .high
      description := "Next.js source maps expose your original source code"
      fix := "Set productionBrowserSourceMaps: false in next.config.js"
      validator := some validators.sourceMap },
    { path := "/phpinfo.php", name := "PHP info page", severity := .high
      description := "PHP info page exposes server configuration and installed modules"
      fix := "Remove phpinfo.php from production servers"
      validator := some validators.phpInfo },
    { path := "/info.php", name := "PHP info page", severity := .high
      description := "PHP info page exposes server configuration"
      fix := "Remove info.php from production servers"
      validator := some validators.phpInfo },
    { path := "/debug.log", name := "Debug log", severity := .high
      description := "Debug logs may contain sensitive information and stack traces"
      fix := "Remove or restrict access to log files"
      validator := some validators.logFile },
    { path := "/error.log", name := "Error log", severity := .medium
      description := "Error logs may expose internal paths and errors"
      fix := "Remove or restrict access to log files"
      validator := some validators.logFile },
    { path := "/wp-content/debug.log", name := "WordPress debug log", severity := .high
      description := "WordPress debug log may contain sensitive errors"
      fix := "Remove debug log or disable WP_DEBUG_LOG in production"
      validator := some validators.logFile },
    { path := "/wp-config.php", name := "WordPress config", severity := .critical
      description := "WordPress configuration contains database credentials"
      fix := "Ensure PHP files are processed by your server, not served as plaintext"
      validator := some validators.phpConfig },
    { path := "/config.json", name := "Config JSON", severity := .high
      description := "Configuration file may contain sensitive settings"
      fix := "Move config files outside the web root or block access"
      validator := some validators.jsonConfig },
    { path := "/package.json", name := "NPM package file", severity := .low
      description := "Exposes dependencies which could reveal vulnerabilities to target"
      fix := "Consider blocking access to package.json in production"
      validator := some validators.packageJson },
    { path := "/.gitignore", name := "Git ignore file", severity := .low
      description := "Reveals project structure and what files the developer considers sensitive"
      fix := "Block access to dotfiles in your web server config"
      validator := some validators.gitignore } ]

/-- One fetched response as `checkExposedFiles` observes it: HTTP status,
`content-type` header (empty when absent), the `content-length` header
parsed as a number (0 when absent), and the body text. -/
structure FileResponse where
  status : Nat
  contentType : List Char
  contentLength : Nat
  body : List Char

/-- The HTTP layer for the exposed-file detector: the response obtained by
fetching each path resolved against the base URL (`none` = the fetch threw,
for example on timeout). -/
def FileEnv : Type := String → Option FileResponse

/-- Per-path outcome record, as stored into `details`. -/
structure FileOutcome where
  status : Nat
  accessible : Bool
  validated : Bool
deriving DecidableEq, Repr

/-- The per-file probe of `checkExposedFiles`: non-200 responses are
rejected; 200 responses with a declared `content-length` over 50000 skip
content validation and count iff not HTML; otherwise the file's validator
(or, for validator-less entries, a basic not-HTML check) decides. -/
def evalSensitiveFile (env : FileEnv) (f : SensitiveFile) : FileOutcome :=
  match env f.path with
  | none => ⟨0, false, false⟩
  | some r =>
    if r.status ≠ 200 then ⟨r.status, false, false⟩
    else if r.contentLength > 50000 then
      let isHtml := ctIsHtml r.contentType
      ⟨r.status, !isHtml, !isHtml⟩
    else
      let validated := match f.validator with
        | some v => v r.body r.contentType
        | none => !(ctIsHtml r.contentType) && !(bodyIsHtmlDoc r.body)
      ⟨r.status, validated, validated⟩

/-- `path.replace(/[^a-z0-9]/gi, '-')`. -/
def sanitizePath (p : String) : String :=
  String.mk (p.toList.map (fun c => if isAlnum c then c else '-'))

/-- The issue built for a validated exposed file. -/
def exposedIssue (f : SensitiveFile) : SecurityIssue :=
  { id := "exposed-" ++ sanitizePath f.path
    severity := f.severity
    category := "Exposed Files"
    title := f.name ++ " accessible: " ++ f.path
    description := f.description
    fix := f.fix
    evidence := none }

/-- The issue list of `checkExposedFiles`: the code walks the table in
chunks of five concurrent fetches and pushes, in table order, an issue for
every file whose outcome is accessible and validated (chunking settles each
batch before the next, so the push order is the table order). -/
def checkExposedFilesIssues (env : FileEnv) : List SecurityIssue :=
  SENSITIVE_FILES.foldl
    (fun acc f =>
      let o := evalSensitiveFile env f
      if o.accessible && o.validated then acc ++ [exposedIssue f] else acc)
    []

/-! ## Subdomain-takeover detector (`src/checks/subdomain-takeover.ts`)

CNAME resolution and the HTTPS-then-HTTP body probe are I/O, modelled by a
`TakeoverEnv`; `probe` returns the body of the first protocol that answered
(`none` = both connections failed, which the code folds into
`vulnerable: false`). -/

/-- `VulnerableService` of the source, with the CNAME regex embedded as a
predicate over the lowercased CNAME. -/
structure VulnerableService where
  name : String
  cnamePattern : List Char → Bool
  fingerprints : List String
  severity : Severity

/-- The AWS S3 CNAME regex `\.s3[.-].*\.amazonaws\.com$` (case handled by
pre-lowercasing): the string ends with `.amazonaws.com` and an `.s3.` or
`.s3-` occurs early enough to leave room for that suffix. -/
def s3CnamePat (c : List Char) : Bool :=
  (".amazonaws.com".toList).isSuffixOf c
    && (strHas (listDropRight c 14) (".s3.".toList)
      || strHas (listDropRight c 14) (".s3-".toList))

/-- A plain `\.suffix$` CNAME regex. -/
def suffixCnamePat (sfx : String) (c : List Char) : Bool :=
  (sfx.toList).isSuffixOf c

/-- The GitHub Pages rule (named, as the concrete rule the witness drives).
Apostrophes in fingerprints are spelled with `apos`. -/
def githubPagesRule : VulnerableService :=
  { name := "GitHub Pages"
    cnamePattern := suffixCnamePat ".github.io"
    fingerprints := ["There isn" ++ String.mk [apos] ++ "t a GitHub Pages site here",
                     "For root URLs"]
    severity := .critical }

/-- `VULNERABLE_SERVICES` of the source, in table order. -/
def VULNERABLE_SERVICES : List VulnerableService :=
  [ { name := "AWS S3", cnamePattern := s3CnamePat
      fingerprints := ["NoSuchBucket", "The specified bucket does not exist"]
      severity := .critical },
    githubPagesRule,
    { name := "Heroku", cnamePattern := suffixCnamePat ".herokuapp.com"
      fingerprints := ["No such app", "herokucdn.com/error-pages/no-such-app"]
      severity := .critical },
    { name := "Azure", cnamePattern := suffixCnamePat ".azurewebsites.net"
      fingerprints := ["404 Web Site not found", "Microsoft Azure App Service"]
      severity := .critical },
    { name := "Netlify", cnamePattern := suffixCnamePat ".netlify.app"
      fingerprints := ["Not Found - Request ID"]
      severity := .high },
    { name := "Vercel", cnamePattern := suffixCnamePat ".vercel.app"
      fingerprints := ["The deployment you are trying to access"]
      severity := .high },
    { name := "Cloudfront", cnamePattern := suffixCnamePat ".cloudfront.net"
      fingerprints := ["The request could not be satisfied",
                       "ERROR: The request could not be satisfied"]
      severity := .high },
    { name := "Fastly", cnamePattern := suffixCnamePat ".fastly.net"
      fingerprints := ["Fastly error: unknown domain"]
      severity := .high },
    { name := "Pantheon", cnamePattern := suffixCnamePat ".pantheonsite.io"
      fingerprints := ["The gods are wise", "404 error unknown site"]
      severity := .high },
    { name := "Tumblr", cnamePattern := suffixCnamePat ".tumblr.com"
      fingerprints := ["There" ++ String.mk [apos] ++ "s nothing here",
                       "Whatever you were looking for doesn" ++ String.mk [apos]
                         ++ "t currently exist"]
      severity := .high },
    { name := "Shopify", cnamePattern := suffixCnamePat ".myshopify.com"
      fingerprints := ["Sorry, this shop is currently unavailable"]
      severity := .high },
    { name := "Surge.sh", cnamePattern := suffixCnamePat ".surge.sh"
      fingerprints := ["project not found"]
      severity := .high },
    { name := "UserVoice", cnamePattern := suffixCnamePat ".uservoice.com"
      fingerprints := ["This UserVoice subdomain is currently available"]
      severity := .high },
    { name := "Ghost", cnamePattern := suffixCnamePat ".ghost.io"
      fingerprints := ["The thing you were looking for is no longer here"]
      severity := .high },
    { name := "Cargo", cnamePattern := suffixCnamePat ".cargo.site"
      fingerprints := ["<title>404 — File not found</title>"]
      severity := .high },
    { name := "Fly.io", cnamePattern := suffixCnamePat ".fly.dev"
      fingerprints := ["Could not resolve host"]
      severity := .high },
    { name := "Railway", cnamePattern := suffixCnamePat ".railway.app"
      fingerprints := ["Application not found"]
      severity := .high },
    { name := "Render", cnamePattern := suffixCnamePat ".onrender.com"
      fingerprints := ["Not Found"]
      severity := .high } ]

/-- `SubdomainTakeoverResult` of the source. -/
structure SubdomainTakeoverResult where
  subdomain : String
  cname : String
  service : String
  vulnerable : Bool
  severity : Severity
  evidence : Option String
deriving DecidableEq, Repr

/-- The probe layer for the takeover detector: CNAME targets of a name
(`none` = resolution rejected) and the body of the HTTPS-then-HTTP probe
(`none` = both protocols failed). -/
structure TakeoverEnv where
  cname : String → Option (List String)
  probe : String → Option (List Char)

/-- `checkHttpFingerprint`: no reachable response is non-vulnerable; a body
is vulnerable iff some configured fingerprint occurs in it, the first (in
table order) being the recorded evidence. -/
def checkHttpFingerprint (env : TakeoverEnv) (sub : String)
    (fingerprints : List String) : Bool × Option String :=
  match env.probe sub with
  | none => (false, none)
  | some body =>
    match fingerprints.find? (fun fp => strHas body fp.toList) with
    | some fp => (true, some fp)
    | none => (false, none)

/-- `checkSubdomainTakeover`: resolve the CNAME; on the first rule whose
pattern matches the lowercased first CNAME, probe and classify; otherwise
(no CNAME, empty answer, failed resolution, or no matching rule) `null`. -/
def checkSubdomainTakeover (env : TakeoverEnv) (sub : String) :
    Option SubdomainTakeoverResult :=
  match env.cname sub with
  | none => none
  | some [] => none
  | some (c0 :: _) =>
    let cn := lowerStr c0.toList
    match VULNERABLE_SERVICES.find? (fun s => s.cnamePattern cn) with
    | none => none
    | some svc =>
      match checkHttpFingerprint env sub svc.fingerprints with
      | (true, ev) => some ⟨sub, String.mk cn, svc.name, true, svc.severity, ev⟩
      | (false, _) => some ⟨sub, String.mk cn, svc.name, false, svc.severity, none⟩

/-- The issue built for one vulnerable candidate. -/
def takeoverIssue (r : SubdomainTakeoverResult) : SecurityIssue :=
  { id := "subdomain-takeover-"
      ++ String.mk (r.subdomain.toList.map (fun ch => if ch = '.' then '-' else ch))
    severity := r.severity
    category := "Subdomain Security"
    title := "Subdomain takeover possible: " ++ r.subdomain
    description := "The subdomain \"" ++ r.subdomain ++ "\" has a CNAME pointing to "
      ++ r.service ++ " (" ++ r.cname
      ++ "), but the service appears unclaimed. An attacker could register this on "
      ++ r.service ++ " and serve malicious content from your domain."
    fix := "Either claim the " ++ r.service
      ++ " resource or remove the CNAME record from your DNS. If the service is no longer needed, delete the DNS record."
    evidence := none }

/-- The issues one candidate contributes to `checkSubdomainTakeovers`: one
issue iff its result is vulnerable. -/
def subdomainIssuesFor (env : TakeoverEnv) (sub : String) : List SecurityIssue :=
  match checkSubdomainTakeover env sub with
  | some r => if r.vulnerable then [takeoverIssue r] else []
  | none => []

/-- The issue list of `checkSubdomainTakeovers`: the first `maxChecks`
candidates, examined in batches of three concurrent checks whose results are
pushed in order, so the issues are the in-order concatenation of each
candidate's contribution. -/
def checkSubdomainTakeoversIssues (env : TakeoverEnv) (subdomains : List String)
    (maxChecks : Nat) : List SecurityIssue :=
  (subdomains.take maxChecks).flatMap (subdomainIssuesFor env)

/-! ## Orchestrator (`src/scanner.ts`, `scanUrl`)

`scanUrl` fetches the baseline page inside the only `try/catch` of the
function, pushes header-dependent results (or fixed placeholders when the
baseline fetch failed) one at a time, then awaits `Promise.all` over the
remaining detectors and appends their results in order.  Detector calls are
`await`ed with no surrounding `try`, so a rejecting detector promise
propagates out of `scanUrl`; the detectors' own outcomes are therefore
modelled as `Except String CheckResult` values supplied by a
`DetectorRuns` record. -/

/-- The outcome of each detector call `scanUrl` can make: `.ok` a result, or
`.error` for a promise rejected by an exception escaping the detector. -/
structure DetectorRuns where
  secHeaders : Except String CheckResult
  cookies : Except String CheckResult
  cors : Except String CheckResult
  serverInfo : Except String CheckResult
  tech : Except String CheckResult
  ssl : Except String CheckResult
  dns : Except String CheckResult
  apiKeys : Except String CheckResult
  clientPerms : Except String CheckResult
  exposedFiles : Except String CheckResult
  adminPaths : Except String CheckResult
  robots : Except String CheckResult

/-- Placeholder pushed for the headers check when the baseline fetch failed. -/
def placeholderSecurityHeaders : CheckResult :=
  ⟨"Security Headers", false, [], none⟩

/-- Placeholder pushed for the cookie check when the baseline fetch failed. -/
def placeholderCookies : CheckResult := ⟨"Cookie Security", true, [], none⟩

/-- Placeholder pushed for the CORS check when the baseline fetch failed. -/
def placeholderCors : CheckResult := ⟨"CORS Configuration", true, [], none⟩

/-- Placeholder pushed for the server-info check when the baseline fetch
failed. -/
def placeholderServerInfo : CheckResult := ⟨"Server Information", true, [], none⟩

/-- The initial `techResult`, pushed unchanged when headers or HTML are
missing (an empty HTML string is falsy in the `mainHeaders && mainHtml`
guard). -/
def placeholderTech : CheckResult := ⟨"Technology Stack", true, [], none⟩

/-- `Promise.all` over detector outcomes: every result in order, or a
rejection if any element rejected. -/
def seqExcept : List (Except String CheckResult) → Except String (List CheckResult)
  | [] => .ok []
  | e :: rest =>
    match e with
    | .error s => .error s
    | .ok c => (seqExcept rest).map (fun cs => c :: cs)

/-- The check list `scanUrl` assembles.  `baseline` is the main-page fetch
outcome: `none` when the fetch threw (headers stay `null`, HTML stays empty),
`some html` on success.  The admin-path check is scheduled unless outreach
mode or `skipAdminPaths` disables it. -/
def scanChecks (baseline : Option String) (det : DetectorRuns)
    (outreach skipAdminPaths : Bool) : Except String (List CheckResult) := do
  let c1 ← match baseline with
    | some _ => det.secHeaders
    | none => pure placeholderSecurityHeaders
  let c2 ← match baseline with
    | some _ => det.cookies
    | none => pure placeholderCookies
  let c3 ← match baseline with
    | some _ => det.cors
    | none => pure placeholderCors
  let c4 ← match baseline with
    | some _ => det.serverInfo
    | none => pure placeholderServerInfo
  let c5 ← match baseline with
    | some html => if html = "" then pure placeholderTech else det.tech
    | none => pure placeholderTech
  let par :=
    [det.ssl, det.dns, det.apiKeys, det.clientPerms, det.exposedFiles]
      ++ (if !outreach && !skipAdminPaths then [det.adminPaths] else [])
      ++ [det.robots]
  let rs ← seqExcept par
  pure ([c1, c2, c3, c4, c5] ++ rs)

/-- The summary block computed at the end of `scanUrl` from the assembled
check list. -/
def computeSummary (checks : List CheckResult) : Summary :=
  let allIssues := checks.flatMap (fun c => c.issues)
  { total := allIssues.length
    passed := (checks.filter (fun c => c.passed)).length
    failed := (checks.filter (fun c => !c.passed)).length
    critical := (allIssues.filter (fun i => i.severity = Severity.critical)).length
    high := (allIssues.filter (fun i => i.severity = Severity.high)).length
    medium := (allIssues.filter (fun i => i.severity = Severity.medium)).length
    low := (allIssues.filter (fun i => i.severity = Severity.low)).length
    info := (allIssues.filter (fun i => i.severity = Severity.info)).length }

/-- `scanUrl`: the assembled checks with their derived summary, or the
rejection of whichever detector threw. -/
def scanUrl (baseline : Option String) (det : DetectorRuns)
    (outreach skipAdminPaths : Bool) : Except String ScanResult :=
  (scanChecks baseline det outreach skipAdminPaths).map
    (fun checks => ⟨checks, computeSummary checks⟩)

/-! ## Concrete scenarios used by the witnesses and counterexamples -/

/-- A server that answers every path with 200 and the same plain-text page
whose body happens to look like an environment file — the claimed
application-shell rejection has nothing to catch it on, since
`checkExposedFiles` validates per file type only. -/
def uniformEnvFileServer : FileEnv :=
  fun _ => some ⟨200, "text/plain".toList, 0, "API_KEY=abc123".toList⟩

/-- A server that answers every path with the same HTML shell. -/
def uniformHtmlShellServer : FileEnv :=
  fun _ => some ⟨200, "text/html".toList, 0,
    "<!DOCTYPE html><html><body>App</body></html>".toList⟩

/-- 40 alphanumeric characters that embed the AWS anchor `AKIA` followed by
16 `[A-Z0-9]` characters. -/
def awsEmbeddedSuffix : List Char :=
  "AKIA".toList ++ List.replicate 16 'A' ++ List.replicate 20 'a'

/-- A plain 40-character alphanumeric key tail. -/
def plainSuffix : List Char := List.replicate 40 'a'

/-- A leaked OpenAI-format key used by the duplicate-location scenario. -/
def leakedKey : List Char := "sk-proj-".toList ++ plainSuffix

/-- A lowercase UUID. -/
def sampleUuid : List Char := "123e4567-e89b-12d3-a456-426614174000".toList

/-- A probe layer under which `blog.example.com` has a CNAME onto GitHub
Pages and serves the unclaimed-site page containing the `For root URLs`
fingerprint. -/
def githubTakeoverEnv : TakeoverEnv :=
  { cname := fun _ => some ["repo.github.io"]
    probe := fun _ =>
      some "For root URLs, you must provide an index.html file".toList }

/-- A detector result with no findings, used as a neutral outcome. -/
def okCheck (n : String) : CheckResult := ⟨n, true, [], none⟩

/-- A detector run in which the API-key detector's promise rejects while
every other detector resolves. -/
def detBoom : DetectorRuns :=
  { secHeaders := .ok (okCheck "Security Headers")
    cookies := .ok (okCheck "Cookie Security")
    cors := .ok (okCheck "CORS Configuration")
    serverInfo := .ok (okCheck "Server Information")
    tech := .ok (okCheck "Technology Stack")
    ssl := .ok (okCheck "SSL/TLS")
    dns := .ok (okCheck "Email Security (DNS)")
    apiKeys := .error "boom"
    clientPerms := .ok (okCheck "Client-Side Permissions")
    exposedFiles := .ok (okCheck "Exposed Files")
    adminPaths := .ok (okCheck "Admin Paths")
    robots := .ok (okCheck "Robots.txt Analysis") }

/-- A fully resolving detector run carrying one critical and one low
finding. -/
def detResolved : DetectorRuns :=
  { secHeaders := .ok ⟨"Security Headers", false,
      [⟨"missing-content-security-policy", .medium, "Security Headers",
        "Missing Content-Security-Policy header", "d", "f", none⟩], none⟩
    cookies := .ok (okCheck "Cookie Security")
    cors := .ok (okCheck "CORS Configuration")
    serverInfo := .ok (okCheck "Server Information")
    tech := .ok (okCheck "Technology Stack")
    ssl := .ok ⟨"SSL/TLS", false,
      [⟨"ssl-expired", .critical, "SSL/TLS", "Certificate expired", "d", "f",
        none⟩], none⟩
    dns := .ok (okCheck "Email Security (DNS)")
    apiKeys := .ok (okCheck "API Key Exposure")
    clientPerms := .ok (okCheck "Client-Side Permissions")
    exposedFiles := .ok (okCheck "Exposed Files")
    adminPaths := .ok (okCheck "Admin Paths")
    robots := .ok ⟨"Robots.txt Analysis", true,
      [⟨"robots-sensitive-paths", .low, "Information Disclosure",
        "robots.txt reveals potentially sensitive paths", "d", "f", none⟩],
      none⟩ }

/-- The scan result of `detResolved` under a successful baseline fetch. -/
def scanResultW : ScanResult :=
  match scanUrl (some "<html></html>") detResolved false false with
  | .ok r => r
  | .error _ => ⟨[], computeSummary []⟩

/-- DNS answers with an SPF record whose trailing qualifier is `+all` but
which also contains `-all` inside a mechanism name. -/
def spfTrailingPlusAllEnv : DnsEnv :=
  { mx := none
    spfTxt := .ok [["v=spf1 include:not-all.example.com +all"]]
    dmarcTxt := .ok [["v=DMARC1; p=reject"]] }

/-- DNS answers with a plain `v=spf1 +all` record. -/
def spfPlusAllEnv : DnsEnv :=
  { mx := none
    spfTxt := .ok [["v=spf1 +all"]]
    dmarcTxt := .ok [["v=DMARC1; p=reject"]] }

/-- DNS answers in which the SPF TXT lookup resolves with no records. -/
def spfAbsentEnv : DnsEnv :=
  { mx := none
    spfTxt := .ok []
    dmarcTxt := .ok [["v=DMARC1; p=reject"]] }

/-- DNS answers in which the SPF TXT lookup rejects. -/
def spfFailedEnv : DnsEnv :=
  { mx := none
    spfTxt := .error ()
    dmarcTxt := .ok [["v=DMARC1; p=reject"]] }

/-! ## General lemmas -/

/-- Bind on a resolved promise model. -/
theorem ok_bind {α β : Type} (a : α) (f : α → Except String β) :
    (Except.ok a >>= f) = f a := rfl

/-- Bind on a rejected promise model. -/
theorem error_bind {α β : Type} (e : String) (f : α → Except String β) :
    ((Except.error e : Except String α) >>= f) = Except.error e := rfl

/-- A fold that conditionally appends one derived element per item is the
filtered map, appended to the accumulator. -/
theorem foldl_guard_push {α β : Type} (p : α → Bool) (g : α → β) :
    ∀ (l : List α) (acc : List β),
      l.foldl (fun a f => if p f then a ++ [g f] else a) acc
        = acc ++ (l.filter p).map g := by
  intro l
  induction l with
  | nil => intro acc; simp
  | cons x xs ih =>
    intro acc
    by_cases h : p x = true <;>
      simp [List.foldl_cons, List.filter_cons, h, ih]

/-- Every issue has exactly one of the five severities, so the five
severity-filtered lengths partition the list length. -/
theorem length_severity_partition (l : List SecurityIssue) :
    (l.filter (fun i => i.severity = Severity.critical)).length
      + (l.filter (fun i => i.severity = Severity.high)).length
      + (l.filter (fun i => i.severity = Severity.medium)).length
      + (l.filter (fun i => i.severity = Severity.low)).length
      + (l.filter (fun i => i.severity = Severity.info)).length
      = l.length := by
  induction l with
  | nil => simp
  | cons x xs ih =>
    cases hx : x.severity <;> simp [List.filter_cons, hx] <;> omega

/-! ## C7 — SPF qualifier parsing -/

/-- Every DMARC-side issue is `dns-no-dmarc` or `dns-dmarc-none`. -/
theorem dmarc_issue_ids (domain : String) (env : DnsEnv) :
    ∀ i ∈ (checkDnsDmarc domain env).1,
      i.id = "dns-no-dmarc" ∨ i.id = "dns-dmarc-none" := by
  unfold checkDnsDmarc
  cases env.dmarcTxt with
  | error e => simp [dmarcFailureIssue]
  | ok recs =>
    cases hf : (joinChunks recs).find? (startsWithCI "v=dmarc1") with
    | none => simp [hf, dmarcAbsentIssue]
    | some r =>
      by_cases hp : parseDmarcPolicy r = some "none" <;>
        simp [hf, hp, dmarcNoneIssue, dmarcAbsentIssue]

/-- C7 (counterexample): an SPF record whose trailing qualifier is `+all`
but which contains `-all` inside a mechanism name yields no
`dns-spf-permissive` finding at all — `parseSpfPolicy` searches substrings
in a fixed priority order instead of reading the trailing qualifier, so the
record parses as `fail` and the scan reports no SPF issue. -/
theorem spf_trailing_plus_all_yields_no_permissive_finding :
    ("+all".toList).isSuffixOf
        ("v=spf1 include:not-all.example.com +all".toList) = true
      ∧ (checkDnsSecurity "example.com" spfTrailingPlusAllEnv).issues = [] :=
  ⟨by decide, by decide⟩

/-- C7 (amended): the SPF policy is computed by substring containment in the
priority order `-all`, `~all`, `?all`, `+all` — not from the trailing
qualifier.  For a resolved SPF record that contains `+all` and none of the
other three qualifier substrings, the policy is `pass`; the scan then emits
the high-severity `dns-spf-permissive` finding, counts SPF as present, and
emits no `dns-no-spf` finding. -/
theorem spf_plus_all_substring_policy_finding :
    ∀ (domain : String) (env : DnsEnv) (recs : List (List String)) (rec : String),
      env.spfTxt = .ok recs →
      (joinChunks recs).find? (startsWithCI "v=spf1") = some rec →
      strHasS rec "+all" = true →
      strHasS rec "-all" = false →
      strHasS rec "~all" = false →
      strHasS rec "?all" = false →
      spfPermissiveIssue ∈ (checkDnsSecurity domain env).issues
        ∧ (∀ i ∈ (checkDnsSecurity domain env).issues, i.id ≠ "dns-no-spf")
        ∧ (checkDnsSecurity domain env).details.spf.recordExists = true := by
  intro domain env recs rec h1 h2 hp hm ht hq
  have hpol : parseSpfPolicy rec = some "pass" := by
    simp [parseSpfPolicy, hp, hm, ht, hq]
  have hspf : checkDnsSpf env = ([spfPermissiveIssue], ⟨true, some rec, some "pass"⟩) := by
    simp [checkDnsSpf, h1, h2, hpol]
  refine ⟨?_, ?_, ?_⟩
  · simp [checkDnsSecurity, hspf]
  · intro i hi
    simp only [checkDnsSecurity, hspf, List.mem_append] at hi
    rcases hi with hi | hi
    · simp at hi
      subst hi
      simp [spfPermissiveIssue]
    · rcases dmarc_issue_ids domain env i hi with h | h <;> simp [h]
  · simp [checkDnsSecurity, hspf]

/-- C7 (witness): the amended statement at `v=spf1 +all`. -/
theorem spf_plus_all_substring_policy_finding_witness :
    spfPermissiveIssue ∈ (checkDnsSecurity "example.com" spfPlusAllEnv).issues
      ∧ (∀ i ∈ (checkDnsSecurity "example.com" spfPlusAllEnv).issues,
          i.id ≠ "dns-no-spf")
      ∧ (checkDnsSecurity "example.com" spfPlusAllEnv).details.spf.recordExists
          = true :=
  spf_plus_all_substring_policy_finding "example.com" spfPlusAllEnv
    [["v=spf1 +all"]] "v=spf1 +all" rfl (by decide) (by decide) (by decide)
    (by decide) (by decide)

/-! ## C8 — DNS lookup failure versus record absent -/

/-- C8 (counterexample): with DMARC fixed, the SPF lookup-failure branch and
the SPF record-absent branch emit findings with the same id but different
contents (the description and fix texts differ), so the failure branch does
not produce the same Finding as the absent branch. -/
theorem spf_failure_finding_differs_from_absent :
    ((checkDnsSecurity "example.com" spfAbsentEnv).issues.map (fun i => i.id)
        = (checkDnsSecurity "example.com" spfFailedEnv).issues.map (fun i => i.id))
      ∧ (checkDnsSecurity "example.com" spfAbsentEnv).issues
          ≠ (checkDnsSecurity "example.com" spfFailedEnv).issues :=
  ⟨by decide, by decide⟩

/-- C8 (amended): a failed TXT lookup is handled by the same control path as
an absent record, but only the DMARC branch produces a byte-identical
finding; the SPF branch agrees on id, severity and title while its
description and fix texts differ.  Formally: (1) the scans under an
SPF-absent answer and an SPF-rejected answer produce issue lists equal up to
(id, severity, title); (2) a DMARC lookup rejection produces output fully
identical to a DMARC answer containing no `v=DMARC1` record. -/
theorem dns_lookup_failure_vs_absent :
    (∀ (domain : String) (mx : Option Nat)
        (d : Except Unit (List (List String))),
      (checkDnsSecurity domain ⟨mx, .ok [], d⟩).issues.map
          (fun i => (i.id, i.severity, i.title))
        = (checkDnsSecurity domain ⟨mx, .error (), d⟩).issues.map
            (fun i => (i.id, i.severity, i.title)))
      ∧ (∀ (domain : String) (mx : Option Nat)
          (s : Except Unit (List (List String))) (recs : List (List String)),
        (joinChunks recs).find? (startsWithCI "v=dmarc1") = none →
        checkDnsSecurity domain ⟨mx, s, .ok recs⟩
          = checkDnsSecurity domain ⟨mx, s, .error ()⟩) := by
  constructor
  · intro domain mx d
    simp only [checkDnsSecurity, checkDnsSpf, joinChunks, List.map_nil,
      List.find?_nil, List.map_append]
    rfl
  · intro domain mx s recs h
    simp only [checkDnsSecurity, checkDnsDmarc, h]
    rfl

/-- C8 (witness): the amended statement at a concrete domain, an MX answer,
a DMARC answer, and an empty TXT answer. -/
theorem dns_lookup_failure_vs_absent_witness :
    ((checkDnsSecurity "w.example" ⟨none, .ok [], .ok [["v=DMARC1; p=reject"]]⟩).issues.map
        (fun i => (i.id, i.severity, i.title))
      = (checkDnsSecurity "w.example" ⟨none, .error (), .ok [["v=DMARC1; p=reject"]]⟩).issues.map
          (fun i => (i.id, i.severity, i.title)))
    ∧ checkDnsSecurity "w.example" ⟨some 1, .error (), .ok []⟩
        = checkDnsSecurity "w.example" ⟨some 1, .error (), .error ()⟩ :=
  ⟨dns_lookup_failure_vs_absent.1 "w.example" none (.ok [["v=DMARC1; p=reject"]]),
   dns_lookup_failure_vs_absent.2 "w.example" (some 1) (.error ()) [] (by decide)⟩

/-! ## C5 — detector isolation -/

/-- Bind on `pure` in the promise model. -/
theorem pure_bind {α β : Type} (a : α) (f : α → Except String β) :
    ((pure a : Except String α) >>= f) = f a := rfl

/-- Map over a resolved promise model. -/
theorem except_map_ok {α β : Type} (f : α → β) (a : α) :
    Except.map f (Except.ok a : Except String α) = .ok (f a) := rfl

/-- Functor map over a resolved promise model. -/
theorem except_fmap_ok {α β : Type} (f : α → β) (a : α) :
    (f <$> (Except.ok a : Except String α)) = .ok (f a) := rfl

/-- C5 (counterexample): one rejecting detector aborts the whole scan.  With
every other detector resolving, a rejection of the API-key detector makes
`scanUrl` itself reject — no `ScanResult` is returned at all, so the other
detectors' results are lost: the orchestrator has no per-detector isolation
(`Promise.all` and the sequential awaits run outside any `try`). -/
theorem scanUrl_detector_exception_aborts_scan :
    scanUrl (some "<html></html>") detBoom false false = .error "boom" := rfl

/-- C5 (amended): isolation lives inside the detectors (each catches its own
probe failures and resolves with a failed `CheckResult`), not in the
orchestrator.  Whenever every detector call resolves, the scan returns a
`ScanResult` with one `CheckResult` per scheduled detector, in schedule
order — 12 checks, or 11 when outreach mode or `skipAdminPaths` unschedules
the admin-path check; an exception escaping any detector instead rejects
`scanUrl` itself (see the counterexample). -/
theorem scanUrl_all_ok_returns_all_checks :
    ∀ (html : String) (det : DetectorRuns) (o s : Bool)
      (c1 c2 c3 c4 c5 c6 c7 c8 c9 c10 c11 c12 : CheckResult),
      det.secHeaders = .ok c1 → det.cookies = .ok c2 → det.cors = .ok c3 →
      det.serverInfo = .ok c4 → det.tech = .ok c5 → det.ssl = .ok c6 →
      det.dns = .ok c7 → det.apiKeys = .ok c8 → det.clientPerms = .ok c9 →
      det.exposedFiles = .ok c10 → det.adminPaths = .ok c11 →
      det.robots = .ok c12 →
      ∃ r, scanUrl (some html) det o s = .ok r
        ∧ r.checks = [c1, c2, c3, c4,
              if html = "" then placeholderTech else c5]
            ++ [c6, c7, c8, c9, c10]
            ++ (if !o && !s then [c11] else []) ++ [c12]
        ∧ r.checks.length = (if !o && !s then 12 else 11) := by
  intro html det o s c1 c2 c3 c4 c5 c6 c7 c8 c9 c10 c11 c12
  intro h1 h2 h3 h4 h5 h6 h7 h8 h9 h10 h11 h12
  have hsc : scanChecks (some html) det o s
      = .ok ([c1, c2, c3, c4, if html = "" then placeholderTech else c5]
          ++ [c6, c7, c8, c9, c10]
          ++ (if !o && !s then [c11] else []) ++ [c12]) := by
    by_cases hh : html = "" <;> by_cases ha : (!o && !s) = true <;>
      simp [scanChecks, h1, h2, h3, h4, h5, h6, h7, h8, h9, h10, h11, h12,
        hh, ha, ok_bind, pure_bind, seqExcept, except_map_ok, except_fmap_ok]
  refine ⟨⟨([c1, c2, c3, c4, if html = "" then placeholderTech else c5]
      ++ [c6, c7, c8, c9, c10]
      ++ (if !o && !s then [c11] else []) ++ [c12]),
    computeSummary ([c1, c2, c3, c4, if html = "" then placeholderTech else c5]
      ++ [c6, c7, c8, c9, c10]
      ++ (if !o && !s then [c11] else []) ++ [c12])⟩, ?_, rfl, ?_⟩
  · simp [scanUrl, hsc, except_map_ok]
  · by_cases ha : (!o && !s) = true <;> simp [ha]

/-- C5 (witness): the amended statement at the fully resolving detector
run. -/
theorem scanUrl_all_ok_returns_all_checks_witness :
    ∃ r, scanUrl (some "<html></html>") detResolved false false = .ok r
      ∧ r.checks = [⟨"Security Headers", false,
            [⟨"missing-content-security-policy", .medium, "Security Headers",
              "Missing Content-Security-Policy header", "d", "f", none⟩],
            none⟩,
            okCheck "Cookie Security", okCheck "CORS Configuration",
            okCheck "Server Information",
            if ("<html></html>" : String) = "" then placeholderTech
            else okCheck "Technology Stack"]
          ++ [⟨"SSL/TLS", false,
              [⟨"ssl-expired", .critical, "SSL/TLS", "Certificate expired",
                "d", "f", none⟩], none⟩,
            okCheck "Email Security (DNS)", okCheck "API Key Exposure",
            okCheck "Client-Side Permissions", okCheck "Exposed Files"]
          ++ (if !false && !false then [okCheck "Admin Paths"] else [])
          ++ [⟨"Robots.txt Analysis", true,
              [⟨"robots-sensitive-paths", .low, "Information Disclosure",
                "robots.txt reveals potentially sensitive paths", "d", "f",
                none⟩], none⟩]
      ∧ r.checks.length = (if !false && !false then 12 else 11) :=
  scanUrl_all_ok_returns_all_checks "<html></html>" detResolved false false
    ⟨"Security Headers", false,
      [⟨"missing-content-security-policy", .medium, "Security Headers",
        "Missing Content-Security-Policy header", "d", "f", none⟩], none⟩
    (okCheck "Cookie Security") (okCheck "CORS Configuration")
    (okCheck "Server Information") (okCheck "Technology Stack")
    ⟨"SSL/TLS", false,
      [⟨"ssl-expired", .critical, "SSL/TLS", "Certificate expired", "d", "f",
        none⟩], none⟩
    (okCheck "Email Security (DNS)") (okCheck "API Key Exposure")
    (okCheck "Client-Side Permissions") (okCheck "Exposed Files")
    (okCheck "Admin Paths")
    ⟨"Robots.txt Analysis", true,
      [⟨"robots-sensitive-paths", .low, "Information Disclosure",
        "robots.txt reveals potentially sensitive paths", "d", "f", none⟩],
      none⟩
    rfl rfl rfl rfl rfl rfl rfl rfl rfl rfl rfl rfl

/-! ## C6 — summary invariants -/

/-- C6: every `ScanResult` `scanUrl` returns satisfies the summary
invariants: `total` is the sum of the per-check issue counts; the five
per-severity counts (each the number of issues of that severity across all
checks) sum to `total`; and `passed + failed` is the number of checks. -/
theorem scanUrl_summary_invariants :
    ∀ (baseline : Option String) (det : DetectorRuns) (o s : Bool)
      (r : ScanResult),
      scanUrl baseline det o s = .ok r →
      r.summary.total = (r.checks.map (fun c => c.issues.length)).sum
        ∧ r.summary.critical + r.summary.high + r.summary.medium
            + r.summary.low + r.summary.info = r.summary.total
        ∧ r.summary.passed + r.summary.failed = r.checks.length
        ∧ r.summary.critical = ((r.checks.flatMap (fun c => c.issues)).filter
            (fun i => i.severity = Severity.critical)).length
        ∧ r.summary.high = ((r.checks.flatMap (fun c => c.issues)).filter
            (fun i => i.severity = Severity.high)).length
        ∧ r.summary.medium = ((r.checks.flatMap (fun c => c.issues)).filter
            (fun i => i.severity = Severity.medium)).length
        ∧ r.summary.low = ((r.checks.flatMap (fun c => c.issues)).filter
            (fun i => i.severity = Severity.low)).length
        ∧ r.summary.info = ((r.checks.flatMap (fun c => c.issues)).filter
            (fun i => i.severity = Severity.info)).length := by
  intro baseline det o s r h
  unfold scanUrl at h
  cases hsc : scanChecks baseline det o s with
  | error e => rw [hsc] at h; exact absurd h (by simp [Except.map])
  | ok checks =>
    rw [hsc, except_map_ok] at h
    have hr : r = ⟨checks, computeSummary checks⟩ := by
      cases h; rfl
    subst hr
    refine ⟨?_, ?_, ?_, rfl, rfl, rfl, rfl, rfl⟩
    · simp [computeSummary, List.length_flatMap, Function.comp_def]
    · exact length_severity_partition (checks.flatMap (fun c => c.issues))
    · simpa [computeSummary] using
        (List.length_eq_length_filter_add (l := checks)
          (fun c => c.passed)).symm

/-- C6 (witness): the invariants at a concrete resolved scan. -/
theorem scanUrl_summary_invariants_witness :
    scanResultW.summary.total
        = (scanResultW.checks.map (fun c => c.issues.length)).sum
      ∧ scanResultW.summary.critical + scanResultW.summary.high
          + scanResultW.summary.medium + scanResultW.summary.low
          + scanResultW.summary.info = scanResultW.summary.total
      ∧ scanResultW.summary.passed + scanResultW.summary.failed
          = scanResultW.checks.length
      ∧ scanResultW.summary.critical
          = ((scanResultW.checks.flatMap (fun c => c.issues)).filter
              (fun i => i.severity = Severity.critical)).length
      ∧ scanResultW.summary.high
          = ((scanResultW.checks.flatMap (fun c => c.issues)).filter
              (fun i => i.severity = Severity.high)).length
      ∧ scanResultW.summary.medium
          = ((scanResultW.checks.flatMap (fun c => c.issues)).filter
              (fun i => i.severity = Severity.medium)).length
      ∧ scanResultW.summary.low
          = ((scanResultW.checks.flatMap (fun c => c.issues)).filter
              (fun i => i.severity = Severity.low)).length
      ∧ scanResultW.summary.info
          = ((scanResultW.checks.flatMap (fun c => c.issues)).filter
              (fun i => i.severity = Severity.info)).length :=
  scanUrl_summary_invariants (some "<html></html>") detResolved false false
    scanResultW rfl

/-! ## C10 — baseline fetch failure -/

/-- C10: when the baseline fetch fails, `scanUrl` still resolves: the five
header-dependent checks come back as fixed placeholders — `Security Headers`
failed with no issues, the other four passed with no issues, none carrying a
details payload (so a consumer cannot tell "could not run" from "no
findings" for them) — while the parallel detectors' results are appended
unchanged. -/
theorem scanUrl_baseline_failure_placeholders :
    ∀ (det : DetectorRuns) (o s : Bool)
      (c6 c7 c8 c9 c10 c11 c12 : CheckResult),
      det.ssl = .ok c6 → det.dns = .ok c7 → det.apiKeys = .ok c8 →
      det.clientPerms = .ok c9 → det.exposedFiles = .ok c10 →
      det.adminPaths = .ok c11 → det.robots = .ok c12 →
      ∃ r, scanUrl none det o s = .ok r
        ∧ r.checks = [⟨"Security Headers", false, [], none⟩,
              ⟨"Cookie Security", true, [], none⟩,
              ⟨"CORS Configuration", true, [], none⟩,
              ⟨"Server Information", true, [], none⟩,
              ⟨"Technology Stack", true, [], none⟩]
            ++ [c6, c7, c8, c9, c10]
            ++ (if !o && !s then [c11] else []) ++ [c12] := by
  intro det o s c6 c7 c8 c9 c10 c11 c12 h6 h7 h8 h9 h10 h11 h12
  have hsc : scanChecks none det o s
      = .ok ([⟨"Security Headers", false, [], none⟩,
            ⟨"Cookie Security", true, [], none⟩,
            ⟨"CORS Configuration", true, [], none⟩,
            ⟨"Server Information", true, [], none⟩,
            ⟨"Technology Stack", true, [], none⟩]
          ++ [c6, c7, c8, c9, c10]
          ++ (if !o && !s then [c11] else []) ++ [c12]) := by
    by_cases ha : (!o && !s) = true <;>
      simp [scanChecks, h6, h7, h8, h9, h10, h11, h12, ha, ok_bind,
        pure_bind, seqExcept, except_map_ok, except_fmap_ok,
        placeholderSecurityHeaders, placeholderCookies, placeholderCors,
        placeholderServerInfo, placeholderTech]
  refine ⟨⟨([⟨"Security Headers", false, [], none⟩,
        ⟨"Cookie Security", true, [], none⟩,
        ⟨"CORS Configuration", true, [], none⟩,
        ⟨"Server Information", true, [], none⟩,
        ⟨"Technology Stack", true, [], none⟩]
      ++ [c6, c7, c8, c9, c10]
      ++ (if !o && !s then [c11] else []) ++ [c12]),
    computeSummary ([⟨"Security Headers", false, [], none⟩,
        ⟨"Cookie Security", true, [], none⟩,
        ⟨"CORS Configuration", true, [], none⟩,
        ⟨"Server Information", true, [], none⟩,
        ⟨"Technology Stack", true, [], none⟩]
      ++ [c6, c7, c8, c9, c10]
      ++ (if !o && !s then [c11] else []) ++ [c12])⟩, ?_, rfl⟩
  simp [scanUrl, hsc, except_map_ok]

/-- C10 (witness): the placeholder behaviour at the concrete resolving
detector run. -/
theorem scanUrl_baseline_failure_placeholders_witness :
    ∃ r, scanUrl none detResolved false false = .ok r
      ∧ r.checks = [⟨"Security Headers", false, [], none⟩,
            ⟨"Cookie Security", true, [], none⟩,
            ⟨"CORS Configuration", true, [], none⟩,
            ⟨"Server Information", true, [], none⟩,
            ⟨"Technology Stack", true, [], none⟩]
          ++ [⟨"SSL/TLS", false,
              [⟨"ssl-expired", .critical, "SSL/TLS", "Certificate expired",
                "d", "f", none⟩], none⟩,
            okCheck "Email Security (DNS)", okCheck "API Key Exposure",
            okCheck "Client-Side Permissions", okCheck "Exposed Files"]
          ++ (if !false && !false then [okCheck "Admin Paths"] else [])
          ++ [⟨"Robots.txt Analysis", true,
              [⟨"robots-sensitive-paths", .low, "Information Disclosure",
                "robots.txt reveals potentially sensitive paths", "d", "f",
                none⟩], none⟩] :=
  scanUrl_baseline_failure_placeholders detResolved false false
    ⟨"SSL/TLS", false,
      [⟨"ssl-expired", .critical, "SSL/TLS", "Certificate expired", "d", "f",
        none⟩], none⟩
    (okCheck "Email Security (DNS)") (okCheck "API Key Exposure")
    (okCheck "Client-Side Permissions") (okCheck "Exposed Files")
    (okCheck "Admin Paths")
    ⟨"Robots.txt Analysis", true,
      [⟨"robots-sensitive-paths", .low, "Information Disclosure",
        "robots.txt reveals potentially sensitive paths", "d", "f", none⟩],
      none⟩
    rfl rfl rfl rfl rfl rfl rfl

/-! ## C9 — oversized responses -/

/-- The issue list of the exposed-file detector is the filtered map of the
table through the per-file acceptance test. -/
theorem checkExposedFilesIssues_eq (env : FileEnv) :
    checkExposedFilesIssues env
      = (SENSITIVE_FILES.filter (fun f =>
          (evalSensitiveFile env f).accessible
            && (evalSensitiveFile env f).validated)).map exposedIssue := by
  show SENSITIVE_FILES.foldl
      (fun acc f =>
        if (evalSensitiveFile env f).accessible
            && (evalSensitiveFile env f).validated then
          acc ++ [exposedIssue f]
        else acc) [] = _
  rw [foldl_guard_push]
  simp

/-- Within the static table, the issue id determines the file path. -/
theorem exposedIssue_id_inj :
    ∀ f1 ∈ SENSITIVE_FILES, ∀ f2 ∈ SENSITIVE_FILES,
      (exposedIssue f1).id = (exposedIssue f2).id → f1.path = f2.path := by
  decide

/-- C9: a 200 response whose declared `content-length` exceeds 50000 skips
content validation — its outcome fields are `!isHtml` outright — and it is
reported as a finding iff its content type is not HTML. -/
theorem exposedFiles_oversized_iff_not_html :
    ∀ (env : FileEnv) (f : SensitiveFile) (r : FileResponse),
      f ∈ SENSITIVE_FILES →
      env f.path = some r →
      r.status = 200 →
      r.contentLength > 50000 →
      (evalSensitiveFile env f).validated = !(ctIsHtml r.contentType)
        ∧ (evalSensitiveFile env f).accessible = !(ctIsHtml r.contentType)
        ∧ ((∃ i ∈ checkExposedFilesIssues env, i.id = (exposedIssue f).id)
            ↔ ctIsHtml r.contentType = false) := by
  intro env f r hf hr h200 hbig
  have heval : evalSensitiveFile env f
      = ⟨r.status, !(ctIsHtml r.contentType), !(ctIsHtml r.contentType)⟩ := by
    simp [evalSensitiveFile, hr, h200, hbig]
  refine ⟨by simp [heval], by simp [heval], ?_⟩
  constructor
  · rintro ⟨i, hi, hid⟩
    rw [checkExposedFilesIssues_eq] at hi
    obtain ⟨f', hf', hif'⟩ := List.mem_map.mp hi
    obtain ⟨hf'mem, hacc'⟩ := List.mem_filter.mp hf'
    have hpath : f'.path = f.path :=
      exposedIssue_id_inj f' hf'mem f hf (by rw [hif', hid])
    have heval' : evalSensitiveFile env f'
        = ⟨r.status, !(ctIsHtml r.contentType), !(ctIsHtml r.contentType)⟩ := by
      simp [evalSensitiveFile, hpath, hr, h200, hbig]
    rw [heval'] at hacc'
    simpa using hacc'
  · intro hhtml
    refine ⟨exposedIssue f, ?_, rfl⟩
    rw [checkExposedFilesIssues_eq]
    exact List.mem_map.mpr
      ⟨f, List.mem_filter.mpr ⟨hf, by simp [heval, hhtml]⟩, rfl⟩

/-- C9 (witness): a 60000-byte `application/octet-stream` answer for
`/backup.sql` is reported. -/
theorem exposedFiles_oversized_iff_not_html_witness :
    (evalSensitiveFile
        (fun _ => some ⟨200, "application/octet-stream".toList, 60000, []⟩)
        { path := "/backup.sql", name := "SQL backup", severity := .critical
          description := "Database backup exposed - contains all your data"
          fix := "Remove backup files from web root and never store them publicly"
          validator := some validators.sqlFile }).validated
      = !(ctIsHtml ("application/octet-stream".toList))
    ∧ (evalSensitiveFile
        (fun _ => some ⟨200, "application/octet-stream".toList, 60000, []⟩)
        { path := "/backup.sql", name := "SQL backup", severity := .critical
          description := "Database backup exposed - contains all your data"
          fix := "Remove backup files from web root and never store them publicly"
          validator := some validators.sqlFile }).accessible
      = !(ctIsHtml ("application/octet-stream".toList))
    ∧ ((∃ i ∈ checkExposedFilesIssues
          (fun _ => some ⟨200, "application/octet-stream".toList, 60000, []⟩),
          i.id = (exposedIssue
            { path := "/backup.sql", name := "SQL backup", severity := .critical
              description := "Database backup exposed - contains all your data"
              fix := "Remove backup files from web root and never store them publicly"
              validator := some validators.sqlFile }).id)
        ↔ ctIsHtml ("application/octet-stream".toList) = false) :=
  exposedFiles_oversized_iff_not_html
    (fun _ => some ⟨200, "application/octet-stream".toList, 60000, []⟩)
    { path := "/backup.sql", name := "SQL backup", severity := .critical
      description := "Database backup exposed - contains all your data"
      fix := "Remove backup files from web root and never store them publicly"
      validator := some validators.sqlFile }
    ⟨200, "application/octet-stream".toList, 60000, []⟩
    (by unfold SENSITIVE_FILES
        exact List.mem_cons_of_mem _ (List.mem_cons_of_mem _
          (List.mem_cons_of_mem _ (List.mem_cons_of_mem _
            (List.mem_cons_of_mem _ (List.mem_cons_self _ _))))))
    rfl rfl (by decide)

/-! ## C1 — application-shell rejection in the exposed-file detector -/

/-- C1 (counterexample): a server answering every sensitive-file path with
HTTP 200 and the site's (plain-text) homepage body is not rejected: the
detector has no baseline-signature comparison, and a homepage body that
itself matches the environment-file validator produces three findings
instead of the claimed zero. -/
theorem exposedFiles_uniform_server_not_rejected :
    checkExposedFilesIssues uniformEnvFileServer ≠ []
      ∧ (checkExposedFilesIssues uniformEnvFileServer).length = 3 :=
  ⟨by decide, by decide⟩

/-- C1 (amended): the rejection the detector actually performs is per-file
content validation, with no baseline comparison.  A server answering every
path with HTTP 200 and one fixed body is reported finding-free provided the
response content type is HTML and the body contains neither the phpinfo
markers nor the PHP-source markers — the two validators that ignore the
content type. -/
theorem exposedFiles_html_shell_rejected :
    ∀ (body ct : List Char) (cl : Nat),
      ctIsHtml ct = true →
      validators.phpInfo body ct = false →
      validators.phpConfig body ct = false →
      checkExposedFilesIssues (fun _ => some ⟨200, ct, cl, body⟩) = [] := by
  intro body ct cl hct hinfo hcfg
  rw [checkExposedFilesIssues_eq]
  have hfilter : SENSITIVE_FILES.filter (fun f =>
      (evalSensitiveFile (fun _ => some ⟨200, ct, cl, body⟩) f).accessible
        && (evalSensitiveFile (fun _ => some ⟨200, ct, cl, body⟩) f).validated)
      = [] := by
    rw [List.filter_eq_nil_iff]
    intro f hf
    fin_cases hf <;> by_cases hcl : cl > 50000 <;>
      simp [evalSensitiveFile, hcl, hct, validators.envFile,
        validators.gitConfig, validators.gitHead, validators.sqlFile,
        validators.sourceMap, validators.logFile, validators.jsonConfig,
        validators.gitignore, validators.packageJson, hinfo, hcfg]
  simp [hfilter]

/-- C1 (witness): a typical HTML application shell served everywhere yields
zero findings. -/
theorem exposedFiles_html_shell_rejected_witness :
    checkExposedFilesIssues uniformHtmlShellServer = [] :=
  exposedFiles_html_shell_rejected
    ("<!DOCTYPE html><html><body>App</body></html>".toList)
    ("text/html".toList) 0 (by decide) (by decide) (by decide)

/-! ## C4 — subdomain-takeover fingerprint gating -/

/-- C4: per candidate, the takeover detector reports exactly as specified:
no CNAME, an empty CNAME answer, a failed resolution, a CNAME matching no
rule, or a failed probe yield no finding; with a matching rule, a body
containing none of that rule's fingerprints yields no finding (service
claimed), and a body containing at least one yields exactly one finding at
the rule's severity; the aggregate issue list is the concatenation of the
per-candidate contributions over the first `maxChecks` candidates. -/
theorem checkSubdomainTakeovers_fingerprint_gating :
    (∀ (env : TakeoverEnv) (sub : String),
        env.cname sub = none → subdomainIssuesFor env sub = [])
    ∧ (∀ (env : TakeoverEnv) (sub : String),
        env.cname sub = some [] → subdomainIssuesFor env sub = [])
    ∧ (∀ (env : TakeoverEnv) (sub : String) (c0 : String) (rest : List String),
        env.cname sub = some (c0 :: rest) →
        VULNERABLE_SERVICES.find?
            (fun s => s.cnamePattern (lowerStr c0.toList)) = none →
        subdomainIssuesFor env sub = [])
    ∧ (∀ (env : TakeoverEnv) (sub : String) (c0 : String) (rest : List String)
          (svc : VulnerableService),
        env.cname sub = some (c0 :: rest) →
        VULNERABLE_SERVICES.find?
            (fun s => s.cnamePattern (lowerStr c0.toList)) = some svc →
        env.probe sub = none →
        subdomainIssuesFor env sub = [])
    ∧ (∀ (env : TakeoverEnv) (sub : String) (c0 : String) (rest : List String)
          (svc : VulnerableService) (body : List Char),
        env.cname sub = some (c0 :: rest) →
        VULNERABLE_SERVICES.find?
            (fun s => s.cnamePattern (lowerStr c0.toList)) = some svc →
        env.probe sub = some body →
        (∀ fp ∈ svc.fingerprints, strHas body fp.toList = false) →
        subdomainIssuesFor env sub = [])
    ∧ (∀ (env : TakeoverEnv) (sub : String) (c0 : String) (rest : List String)
          (svc : VulnerableService) (body : List Char),
        env.cname sub = some (c0 :: rest) →
        VULNERABLE_SERVICES.find?
            (fun s => s.cnamePattern (lowerStr c0.toList)) = some svc →
        env.probe sub = some body →
        (∃ fp ∈ svc.fingerprints, strHas body fp.toList = true) →
        ∃ issue, subdomainIssuesFor env sub = [issue]
          ∧ issue.severity = svc.severity)
    ∧ (∀ (env : TakeoverEnv) (subs : List String) (maxChecks : Nat),
        (checkSubdomainTakeoversIssues env subs maxChecks).length
          = ((subs.take maxChecks).map
              (fun sub => (subdomainIssuesFor env sub).length)).sum) := by
  refine ⟨?_, ?_, ?_, ?_, ?_, ?_, ?_⟩
  · intro env sub h
    simp [subdomainIssuesFor, checkSubdomainTakeover, h]
  · intro env sub h
    simp [subdomainIssuesFor, checkSubdomainTakeover, h]
  · intro env sub c0 rest hc hfind
    simp only [String.toList] at hfind
    simp [subdomainIssuesFor, checkSubdomainTakeover, hc, hfind]
  · intro env sub c0 rest svc hc hfind hprobe
    simp only [String.toList] at hfind
    simp [subdomainIssuesFor, checkSubdomainTakeover, hc, hfind,
      checkHttpFingerprint, hprobe]
  · intro env sub c0 rest svc body hc hfind hprobe hfp
    simp only [String.toList] at hfind
    have hnone : svc.fingerprints.find? (fun fp => strHas body fp.data)
        = none :=
      List.find?_eq_none.mpr (fun fp hfpmem => by
        simp [show strHas body fp.data = false from hfp fp hfpmem])
    simp [subdomainIssuesFor, checkSubdomainTakeover, hc, hfind,
      checkHttpFingerprint, hprobe, hnone]
  · intro env sub c0 rest svc body hc hfind hprobe hfp
    simp only [String.toList] at hfind
    have hsome : (svc.fingerprints.find? (fun fp => strHas body fp.data)).isSome :=
      List.find?_isSome.mpr hfp
    obtain ⟨fp, hfpeq⟩ := Option.isSome_iff_exists.mp hsome
    refine ⟨takeoverIssue ⟨sub, String.mk (lowerStr c0.toList), svc.name, true,
      svc.severity, some fp⟩, ?_, rfl⟩
    simp [subdomainIssuesFor, checkSubdomainTakeover, hc, hfind,
      checkHttpFingerprint, hprobe, hfpeq, String.mk]
  · intro env subs maxChecks
    simp [checkSubdomainTakeoversIssues, List.length_flatMap,
      Function.comp_def]

/-- C4 (witness): a candidate with a CNAME onto GitHub Pages whose probe
body carries the `For root URLs` fingerprint yields exactly one critical
finding. -/
theorem checkSubdomainTakeovers_fingerprint_gating_witness :
    ∃ issue, subdomainIssuesFor githubTakeoverEnv "blog.example.com" = [issue]
      ∧ issue.severity = githubPagesRule.severity :=
  checkSubdomainTakeovers_fingerprint_gating.2.2.2.2.2.1 githubTakeoverEnv
    "blog.example.com" "repo.github.io" [] githubPagesRule
    ("For root URLs, you must provide an index.html file".toList) rfl rfl rfl
    ⟨"For root URLs", by simp [githubPagesRule], by decide⟩

/-! ## C3 — deduplication scope of the secret-leak detector -/

/-- C3 (counterexample): the same secret served from two scanned locations
is reported once per location: two fetched scripts both containing one
OpenAI-format key produce two issues (with identical ids), not the single
Finding the claim promises. -/
theorem apiKeyIssues_same_secret_two_locations :
    (apiKeyIssues (apiKeyContents ("<p>hi</p>".toList)
        [("https://site/a.js", leakedKey),
         ("https://site/b.js", leakedKey)])).length = 2
      ∧ (apiKeyIssues (apiKeyContents ("<p>hi</p>".toList)
          [("https://site/a.js", leakedKey),
           ("https://site/b.js", leakedKey)])).map (fun i => i.id)
        = ["apikey-openai-sk-proj-", "apikey-openai-sk-proj-"] :=
  ⟨by decide, by decide⟩

/-- The duplicate guard keeps the per-content key list clash-free. -/
theorem pushKey_pairwise (kp : ApiKeyPattern) (loc : String)
    (found : List ExposedKey) (m : List Char)
    (h : found.Pairwise (fun a b =>
      ¬(a.pattern.name = b.pattern.name ∧ a.masked = b.masked))) :
    (pushKey kp loc found m).Pairwise (fun a b =>
      ¬(a.pattern.name = b.pattern.name ∧ a.masked = b.masked)) := by
  by_cases hg : found.any (fun f =>
      decide (f.masked = maskKey m) && decide (f.pattern.name = kp.name)) = true
  · have heq : pushKey kp loc found m = found := by simp [pushKey, hg]
    rw [heq]
    exact h
  · have heq : pushKey kp loc found m = found ++ [⟨kp, m, maskKey m, loc⟩] := by
      simp [pushKey, hg]
    rw [heq, List.pairwise_append]
    refine ⟨h, by simp, ?_⟩
    intro a ha b hb
    rw [List.mem_singleton] at hb
    subst hb
    rintro ⟨hn, hm⟩
    exact hg (List.any_eq_true.mpr ⟨a, ha, by simp [hn, hm]⟩)

/-- Folding matches through the duplicate guard preserves clash-freeness. -/
theorem foldl_pushKey_pairwise (kp : ApiKeyPattern) (loc : String) :
    ∀ (ms : List (List Char)) (found : List ExposedKey),
      found.Pairwise (fun a b =>
        ¬(a.pattern.name = b.pattern.name ∧ a.masked = b.masked)) →
      (ms.foldl (pushKey kp loc) found).Pairwise (fun a b =>
        ¬(a.pattern.name = b.pattern.name ∧ a.masked = b.masked)) := by
  intro ms
  induction ms with
  | nil => intro found h; exact h
  | cons m rest ih =>
    intro found h
    rw [List.foldl_cons]
    exact ih _ (pushKey_pairwise kp loc found m h)

/-- Every pattern pass preserves clash-freeness of the collected keys. -/
theorem foldl_scanStep_pairwise (content : List Char) (loc : String) :
    ∀ (ps : List ApiKeyPattern) (acc : List ExposedKey),
      acc.Pairwise (fun a b =>
        ¬(a.pattern.name = b.pattern.name ∧ a.masked = b.masked)) →
      (ps.foldl (scanStep content loc) acc).Pairwise (fun a b =>
        ¬(a.pattern.name = b.pattern.name ∧ a.masked = b.masked)) := by
  intro ps
  induction ps with
  | nil => intro acc h; exact h
  | cons p rest ih =>
    intro acc h
    rw [List.foldl_cons]
    exact ih _ (foldl_pushKey_pairwise p loc _ acc h)

/-- C3 (amended): deduplication by (pattern name, masked value) happens only
within one scanned content: a single `scanForKeys` pass never returns two
entries with the same pattern name and masked value, while the aggregation
over locations concatenates the per-location results, so the same content
scanned at two locations contributes its full finding count twice. -/
theorem scanForKeys_dedup_within_content :
    (∀ (content : List Char) (loc : String),
        (scanForKeys content loc).Pairwise (fun a b =>
          ¬(a.pattern.name = b.pattern.name ∧ a.masked = b.masked)))
    ∧ (∀ (content : List Char) (l1 l2 : String),
        (apiKeyIssues [(l1, content), (l2, content)]).length
          = (scanForKeys content l1).length + (scanForKeys content l2).length) := by
  constructor
  · intro content loc
    exact foldl_scanStep_pairwise content loc API_KEY_PATTERNS [] (by simp)
  · intro content l1 l2
    simp [apiKeyIssues, apiKeyFoundKeys]

/-! ## C2 — secret-leak detector on anchored keys and unscoped formats -/

/-- A UUID-like character: a hex digit of either case, or a dash. -/
def isUuidChar (c : Char) : Bool := isHexAny c || c = '-'

/-- An anchor containing a non-UUID-like character is never a prefix of
UUID-like content. -/
theorem not_prefix_of_bad_char (anchor ds : List Char) (a : Char)
    (ha : a ∈ anchor) (hna : isUuidChar a = false)
    (hds : ∀ c ∈ ds, isUuidChar c = true) :
    ¬ (anchor <+: ds) := fun hpre => by
  have := hds a (hpre.subset ha)
  rw [this] at hna
  cases hna

/-- `openAIMatch` needs its `sk-` anchor. -/
theorem openAIMatch_none (ds : List Char)
    (h : ¬ (['s', 'k', '-'] <+: ds)) : openAIMatch ds = none := by
  simp [openAIMatch, h]

/-- `anchoredRun` needs its anchor. -/
theorem anchoredRun_none (anchor : List Char) (cls : Char → Bool) (mn : Nat)
    (ds : List Char) (h : ¬ (anchor <+: ds)) :
    anchoredRun anchor cls mn ds = none := by
  simp [anchoredRun, h]

/-- `anchoredExact` needs its anchor. -/
theorem anchoredExact_none (anchor : List Char) (cls : Char → Bool) (n : Nat)
    (ds : List Char) (h : ¬ (anchor <+: ds)) :
    anchoredExact anchor cls n ds = none := by
  simp [anchoredExact, h]

/-- `mongoMatch` needs its `mongodb+srv` anchor. -/
theorem mongoMatch_none (ds : List Char)
    (h : ¬ (['m', 'o', 'n', 'g', 'o', 'd', 'b', '+', 's', 'r', 'v'] <+: ds)) :
    mongoMatch ds = none := by
  simp [mongoMatch, h]

/-- `postgresBody` needs its `postgres` anchor. -/
theorem postgresBody_none (ft : List Char → Option Nat) (ds : List Char)
    (h : ¬ (['p', 'o', 's', 't', 'g', 'r', 'e', 's'] <+: ds)) :
    postgresBody ft ds = none := by
  simp [postgresBody, h]

/-- `firebaseMatch` needs its `"private_key":` anchor. -/
theorem firebaseMatch_none (ds : List Char)
    (h : ¬ (['"', 'p', 'r', 'i', 'v', 'a', 't', 'e', '_', 'k', 'e', 'y', '"',
      ':'] <+: ds)) :
    firebaseMatch ds = none := by
  simp [firebaseMatch, h]

/-- `sendgridMatch` needs its `SG.` anchor. -/
theorem sendgridMatch_none (ds : List Char)
    (h : ¬ (['S', 'G', '.'] <+: ds)) : sendgridMatch ds = none := by
  simp [sendgridMatch, h]

/-- `clerkMatch` needs its `sk_` anchor. -/
theorem clerkMatch_none (ds : List Char)
    (h : ¬ (['s', 'k', '_'] <+: ds)) : clerkMatch ds = none := by
  simp [clerkMatch, h]

/-- `planetscaleMatch` needs its `mysql` anchor. -/
theorem planetscaleMatch_none (ds : List Char)
    (h : ¬ (['m', 'y', 's', 'q', 'l'] <+: ds)) :
    planetscaleMatch ds = none := by
  simp [planetscaleMatch, h]

/-- `upstashMatch` needs its `redis` anchor. -/
theorem upstashMatch_none (ds : List Char)
    (h : ¬ (['r', 'e', 'd', 'i', 's'] <+: ds)) : upstashMatch ds = none := by
  simp [upstashMatch, h]

/-- `convexMatch` needs its `prod:` anchor. -/
theorem convexMatch_none (ds : List Char)
    (h : ¬ (['p', 'r', 'o', 'd', ':'] <+: ds)) : convexMatch ds = none := by
  simp [convexMatch, h]

/-- No pattern of the static table matches anywhere inside UUID-like
content: every matcher is anchored by a literal containing a character that
is neither a hex digit nor a dash. -/
theorem uuidlike_no_match :
    ∀ kp ∈ API_KEY_PATTERNS, ∀ ds : List Char,
      (∀ c ∈ ds, isUuidChar c = true) → kp.matcher ds = none := by
  intro kp hkp ds hds
  fin_cases hkp
  · exact openAIMatch_none ds
      (not_prefix_of_bad_char _ ds 's' (by decide) (by decide) hds)
  · exact anchoredRun_none _ _ _ ds
      (not_prefix_of_bad_char _ ds 's' (by decide) (by decide) hds)
  · exact anchoredRun_none _ _ _ ds
      (not_prefix_of_bad_char _ ds 's' (by decide) (by decide) hds)
  · exact anchoredExact_none _ _ _ ds
      (not_prefix_of_bad_char _ ds 'K' (by decide) (by decide) hds)
  · exact anchoredExact_none _ _ _ ds
      (not_prefix_of_bad_char _ ds 'z' (by decide) (by decide) hds)
  · exact anchoredExact_none _ _ _ ds
      (not_prefix_of_bad_char _ ds 'g' (by decide) (by decide) hds)
  · exact anchoredExact_none _ _ _ ds
      (not_prefix_of_bad_char _ ds 'g' (by decide) (by decide) hds)
  · exact anchoredRun_none _ _ _ ds
      (not_prefix_of_bad_char _ ds 'x' (by decide) (by decide) hds)
  · exact anchoredRun_none _ _ _ ds
      (not_prefix_of_bad_char _ ds 's' (by decide) (by decide) hds)
  · exact mongoMatch_none ds
      (not_prefix_of_bad_char _ ds 'm' (by decide) (by decide) hds)
  · exact postgresBody_none _ ds
      (not_prefix_of_bad_char _ ds 'p' (by decide) (by decide) hds)
  · exact firebaseMatch_none ds
      (not_prefix_of_bad_char _ ds '"' (by decide) (by decide) hds)
  · exact anchoredExact_none _ _ _ ds
      (not_prefix_of_bad_char _ ds 'S' (by decide) (by decide) hds)
  · exact sendgridMatch_none ds
      (not_prefix_of_bad_char _ ds 'S' (by decide) (by decide) hds)
  · exact anchoredExact_none _ _ _ ds
      (not_prefix_of_bad_char _ ds 'k' (by decide) (by decide) hds)
  · exact anchoredRun_none _ _ _ ds
      (not_prefix_of_bad_char _ ds 'r' (by decide) (by decide) hds)
  · exact clerkMatch_none ds
      (not_prefix_of_bad_char _ ds 's' (by decide) (by decide) hds)
  · exact anchoredRun_none _ _ _ ds
      (not_prefix_of_bad_char _ ds 'v' (by decide) (by decide) hds)
  · exact planetscaleMatch_none ds
      (not_prefix_of_bad_char _ ds 'm' (by decide) (by decide) hds)
  · exact postgresBody_none _ ds
      (not_prefix_of_bad_char _ ds 'p' (by decide) (by decide) hds)
  · exact upstashMatch_none ds
      (not_prefix_of_bad_char _ ds 'r' (by decide) (by decide) hds)
  · exact convexMatch_none ds
      (not_prefix_of_bad_char _ ds 'p' (by decide) (by decide) hds)

/-- The `exec` loop finds nothing when the matcher fails on every
UUID-like suffix. -/
theorem scanMatchesAux_eq_nil (m : List Char → Option Nat)
    (h : ∀ ds : List Char, (∀ c ∈ ds, isUuidChar c = true) → m ds = none) :
    ∀ (fuel : Nat) (cs : List Char),
      (∀ c ∈ cs, isUuidChar c = true) → scanMatchesAux m fuel cs = [] := by
  intro fuel
  induction fuel with
  | zero => intro cs _; cases cs <;> rfl
  | succ n ih =>
    intro cs hcs
    cases cs with
    | nil => rfl
    | cons c rest =>
      simp only [scanMatchesAux, h (c :: rest) hcs]
      exact ih rest (fun x hx => hcs x (List.mem_cons_of_mem _ hx))

/-- Pattern passes with no matches collect nothing. -/
theorem foldl_scanStep_of_no_matches (content : List Char) (loc : String) :
    ∀ (ps : List ApiKeyPattern) (acc : List ExposedKey),
      (∀ kp ∈ ps, scanMatches kp.matcher content = []) →
      ps.foldl (scanStep content loc) acc = acc := by
  intro ps
  induction ps with
  | nil => intro acc _; rfl
  | cons p rest ih =>
    intro acc h
    rw [List.foldl_cons]
    have hp : scanStep content loc acc p = acc := by
      unfold scanStep
      rw [h p (List.mem_cons_self _ _)]
      rfl
    rw [hp]
    exact ih acc (fun kp hkp => h kp (List.mem_cons_of_mem _ hkp))

/-- One `exec` step at a matching head position. -/
theorem scanMatchesAux_cons_match (m : List Char → Option Nat) (fuel : Nat)
    (c : Char) (rest : List Char) (n : Nat) (h : m (c :: rest) = some n) :
    scanMatchesAux m (fuel + 1) (c :: rest)
      = (c :: rest).take n :: scanMatchesAux m fuel ((c :: rest).drop (max n 1)) := by
  simp only [scanMatchesAux, h]

/-- The OpenAI matcher consumes an `sk-proj-` key of 40 trailing
alphanumerics whole. -/
theorem openAIMatch_on_key (suffix : List Char) (h40 : suffix.length = 40)
    (halnum : ∀ c ∈ suffix, isAlnum c = true) :
    openAIMatch ("sk-proj-".toList ++ suffix) = some 48 := by
  have htw : suffix.takeWhile isAlnum = suffix :=
    List.takeWhile_eq_self_iff.mpr halnum
  show openAIMatch
    ('s' :: 'k' :: '-' :: 'p' :: 'r' :: 'o' :: 'j' :: '-' :: suffix) = some 48
  have hp1 : (("sk-".toList) <+:
      ('s' :: 'k' :: '-' :: 'p' :: 'r' :: 'o' :: 'j' :: '-' :: suffix)) :=
    ⟨'p' :: 'r' :: 'o' :: 'j' :: '-' :: suffix, rfl⟩
  have hp2 : (("proj-".toList) <+: ('p' :: 'r' :: 'o' :: 'j' :: '-' :: suffix)) :=
    ⟨suffix, rfl⟩
  simp [openAIMatch, hp1, hp2, htw, h40]

/-- The `exec` loop over such a key returns exactly the whole key. -/
theorem scanMatches_openai_key (suffix : List Char) (h40 : suffix.length = 40)
    (halnum : ∀ c ∈ suffix, isAlnum c = true) :
    scanMatches openAIMatch ("sk-proj-".toList ++ suffix)
      = ["sk-proj-".toList ++ suffix] := by
  have hlen : ("sk-proj-".toList ++ suffix).length = 48 := by
    simp [h40]
  unfold scanMatches
  rw [hlen]
  rw [show (48 : Nat) = 47 + 1 from rfl]
  rw [show ("sk-proj-".toList ++ suffix)
      = 's' :: ('k' :: '-' :: 'p' :: 'r' :: 'o' :: 'j' :: '-' :: suffix)
    from rfl]
  rw [scanMatchesAux_cons_match openAIMatch 47 's'
    ('k' :: '-' :: 'p' :: 'r' :: 'o' :: 'j' :: '-' :: suffix) 48
    (openAIMatch_on_key suffix h40 halnum)]
  have hfull : ('s' :: 'k' :: '-' :: 'p' :: 'r' :: 'o' :: 'j' :: '-'
      :: suffix).length = 48 := by simpa using hlen
  rw [show max 48 1 = 48 from rfl]
  rw [List.take_of_length_le (le_of_eq hfull)]
  rw [List.drop_of_length_le (le_of_eq hfull)]
  rfl

/-- The masked form of such a key reveals the `sk-proj-` prefix and the last
four characters only. -/
theorem maskKey_openai_key (suffix : List Char) (h40 : suffix.length = 40) :
    maskKey ("sk-proj-".toList ++ suffix)
      = "sk-proj-****".toList ++ suffix.drop 36 := by
  have hlen : ("sk-proj-".toList ++ suffix).length = 48 := by
    simp [h40]
  unfold maskKey
  rw [hlen]
  norm_num

/-- C2 (amended): (1) a script body that is `sk-proj-` followed by 40
alphanumeric characters, on which no other pattern of the table finds a
match, yields exactly one collected key — the OpenAI entry, masked to
`sk-proj-****` plus the last four characters; the proviso is necessary
because the 40 characters can themselves embed another pattern's anchored
key (see the counterexample).  (2) A body of hex digits and dashes only — a
bare UUID in particular — yields no keys at all: every table pattern is
anchored by a service prefix no such body can contain. -/
theorem scanForKeys_openai_unique_and_uuid_none :
    (∀ (suffix : List Char) (loc : String),
        suffix.length = 40 →
        (∀ c ∈ suffix, isAlnum c = true) →
        (∀ kp ∈ API_KEY_PATTERNS.tail,
          scanMatches kp.matcher ("sk-proj-".toList ++ suffix) = []) →
        scanForKeys ("sk-proj-".toList ++ suffix) loc
          = [⟨openAIPattern, "sk-proj-".toList ++ suffix,
              "sk-proj-****".toList ++ suffix.drop 36, loc⟩])
    ∧ (∀ (body : List Char) (loc : String),
        (∀ c ∈ body, isUuidChar c = true) →
        scanForKeys body loc = []) := by
  constructor
  · intro suffix loc h40 halnum hrest
    unfold scanForKeys
    rw [show API_KEY_PATTERNS = openAIPattern :: API_KEY_PATTERNS.tail from rfl]
    rw [List.foldl_cons]
    have hstep : scanStep ("sk-proj-".toList ++ suffix) loc [] openAIPattern
        = [⟨openAIPattern, "sk-proj-".toList ++ suffix,
            "sk-proj-****".toList ++ suffix.drop 36, loc⟩] := by
      unfold scanStep
      rw [show openAIPattern.matcher = openAIMatch from rfl]
      rw [scanMatches_openai_key suffix h40 halnum]
      rw [List.foldl_cons]
      unfold pushKey
      rw [maskKey_openai_key suffix h40]
      rfl
    rw [hstep]
    exact foldl_scanStep_of_no_matches _ loc _ _ hrest
  · intro body loc hbody
    unfold scanForKeys
    exact foldl_scanStep_of_no_matches body loc API_KEY_PATTERNS []
      (fun kp hkp => scanMatchesAux_eq_nil kp.matcher
        (uuidlike_no_match kp hkp) body.length body hbody)

/-- C2 (counterexample): embedding `AKIA` plus sixteen `[A-Z0-9]` characters
inside the 40 alphanumerics makes the AWS pattern fire as well, so this
`sk-proj-` body yields two findings, not the claimed exactly one. -/
theorem scanForKeys_embedded_anchor_two_findings :
    (awsEmbeddedSuffix.length = 40 ∧ awsEmbeddedSuffix.all isAlnum = true)
      ∧ (scanForKeys ("sk-proj-".toList ++ awsEmbeddedSuffix)
          "inline script").length = 2 :=
  ⟨⟨by decide, by decide⟩, by decide⟩

/-- C2 (witness): the amended statement at 40 `a` characters and at a
concrete UUID. -/
theorem scanForKeys_openai_unique_and_uuid_none_witness :
    scanForKeys ("sk-proj-".toList ++ plainSuffix) "inline script"
        = [⟨openAIPattern, "sk-proj-".toList ++ plainSuffix,
            "sk-proj-****".toList ++ plainSuffix.drop 36, "inline script"⟩]
      ∧ scanForKeys sampleUuid "HTML source" = [] :=
  ⟨scanForKeys_openai_unique_and_uuid_none.1 plainSuffix "inline script"
      (by decide) (by decide) (by decide),
   scanForKeys_openai_unique_and_uuid_none.2 sampleUuid "HTML source"
      (by decide)⟩
